import Mathlib

/-!
Formal model of the Shellsword session/matchmaking engine
(`src/auto-player.js`, server portion).  Moves and phases are the raw
strings the code compares against; distances are integers with the same
`Math.max`/`Math.min` clamps; the single `Math.random() < 0.5` draw of the
distance-2 lunge branch is passed in as a boolean `rand` parameter.
-/

namespace Shellsword

/-- Session ids minted by the server: `g<n>` from `matchPlayers`, `bot_<n>`
from `POST /api/practice`, `ex_<n>` from `POST /api/exhibition`.  The regexp
`^g(\d+)$` used by `loadDataFromDB` matches exactly the `g` constructor. -/
inductive GameId where
  | g (n : Nat)
  | bot (n : Nat)
  | ex (n : Nat)
deriving Repr, DecidableEq

/-- The four legal move tokens (`validateMove`). -/
def validMoves : List String := ["advance", "retreat", "lunge", "parry"]

/-- `validateMove(move)` from the source. -/
def validateMove (move : String) : Bool := validMoves.contains move

/-- Output of the pure part of `resolveTurn` (lines 629-720): the new
distance, the two score flags and the narrative, before the score/reset
post-processing. -/
structure ResolveOut where
  newDistance : Int
  scoreP1 : Bool
  scoreP2 : Bool
  result : String
deriving Repr, DecidableEq

/-- The move-resolution rules of `resolveTurn` (priority branches 1-5).
`p1Move`/`p2Move` are `Option String` because the JS fields may be `null`
(a `null` move fails every string comparison, exactly as in the source);
`rand` is the boolean value of the single `Math.random() < 0.5` draw. -/
def resolveMoves (p1Move p2Move : Option String) (distance : Int) (rand : Bool) :
    ResolveOut :=
  -- 1. Both lunge at distance 1 → double hit
  if p1Move = some "lunge" ∧ p2Move = some "lunge" ∧ distance = 1 then
    { newDistance := distance, scoreP1 := true, scoreP2 := true,
      result := "Both fencers lunge simultaneously at close range → DOUBLE HIT!" }
  -- 2. One lunge + one parry → check riposte
  else if (p1Move = some "lunge" ∧ p2Move = some "parry") ∨
          (p1Move = some "parry" ∧ p2Move = some "lunge") then
    if p1Move = some "lunge" ∧ p2Move = some "parry" then
      { newDistance := distance, scoreP1 := false, scoreP2 := true,
        result := "P1 lunges → P2 PARRIES → RIPOSTE! P2 scores." }
    else
      { newDistance := distance, scoreP1 := true, scoreP2 := false,
        result := "P2 lunges → P1 PARRIES → RIPOSTE! P1 scores." }
  -- 3. One lunge + other move → check distance for hit
  else if p1Move = some "lunge" ∨ p2Move = some "lunge" then
    let lunger := if p1Move = some "lunge" then "P1" else "P2"
    let other := if p1Move = some "lunge" then p2Move else p1Move
    let otherPlayer := if p1Move = some "lunge" then "P2" else "P1"
    if distance = 1 then
      { newDistance := distance,
        scoreP1 := p1Move = some "lunge",
        scoreP2 := ¬ (p1Move = some "lunge"),
        result := lunger ++ " lunges at close range → HIT! " ++ lunger ++ " scores." }
    else if distance = 2 then
      -- 50% chance for close hit
      if rand then
        { newDistance := distance,
          scoreP1 := p1Move = some "lunge",
          scoreP2 := ¬ (p1Move = some "lunge"),
          result := lunger ++ " lunges at medium range → CLOSE HIT! " ++ lunger ++ " scores." }
      else
        { newDistance :=
            if other = some "advance" then max 1 (distance - 1)
            else if other = some "retreat" then min 6 (distance + 1)
            else distance,
          scoreP1 := false, scoreP2 := false,
          result := lunger ++ " lunges at medium range → miss! " ++ otherPlayer ++ " moves." }
    else
      -- Distance 3+: whiff and exposed
      let nd1 := max 1 (distance - 1)
      { newDistance :=
          if other = some "advance" then max 1 (nd1 - 1)
          else if other = some "retreat" then min 6 (nd1 + 1)
          else nd1,
        scoreP1 := false, scoreP2 := false,
        result := lunger ++ " lunges at long range → WHIFF! " ++ lunger ++
          " is exposed. " ++ otherPlayer ++ " gets free advance." }
  -- 4. Parry without lunge = wasted turn
  else if (p1Move = some "parry" ∧ p2Move ≠ some "lunge") ∨
          (p2Move = some "parry" ∧ p1Move ≠ some "lunge") then
    let other := if p1Move = some "parry" then p2Move else p1Move
    let otherPlayer := if p1Move = some "parry" then "P2" else "P1"
    let parryer := if p1Move = some "parry" then "P1" else "P2"
    { newDistance :=
        if other = some "advance" then max 1 (distance - 1)
        else if other = some "retreat" then min 6 (distance + 1)
        else distance,
      scoreP1 := false, scoreP2 := false,
      result := parryer ++ " parries nothing (wasted turn). " ++ otherPlayer ++ " moves." }
  -- 5. Movement only
  else
    let movements :=
      (if p1Move = some "advance" then ["P1 advances"] else []) ++
      (if p2Move = some "advance" then ["P2 advances"] else []) ++
      (if p1Move = some "retreat" then ["P1 retreats"] else []) ++
      (if p2Move = some "retreat" then ["P2 retreats"] else [])
    let baseResult :=
      if movements.isEmpty then "Both fencers stay in position."
      else String.intercalate ", " movements ++ "."
    let distanceChange : Int :=
      (if p1Move = some "advance" then -1 else 0) +
      (if p1Move = some "retreat" then 1 else 0) +
      (if p2Move = some "advance" then -1 else 0) +
      (if p2Move = some "retreat" then 1 else 0)
    let nd := max 1 (min 6 (distance + distanceChange))
    -- Special case: both advance to distance 1 = clash
    if p1Move = some "advance" ∧ p2Move = some "advance" ∧ nd ≤ 1 then
      { newDistance := 1, scoreP1 := false, scoreP2 := false,
        result := "Both fencers advance → CLASH! Distance stays at 1." }
    else
      { newDistance := nd, scoreP1 := false, scoreP2 := false, result := baseResult }

/-- One game session, mirroring the object built by `createGame` plus the
extra fields set by the practice/exhibition handlers and
`loadGameFromDB`.  `phase` and `winner` are the raw strings of the source;
`maxTurns` is optional because the exhibition handler builds its game
object without a `maxTurns` field (in JS `turn >= undefined` is false). -/
structure Game where
  id : GameId
  phase : String
  turn : Nat
  distance : Int
  scoresP1 : Nat
  scoresP2 : Nat
  movesP1 : Option String
  movesP2 : Option String
  lastResult : String
  winner : Option String
  p1Name : String
  p2Name : String
  maxTurns : Option Nat
  timerId : Option Nat
  botDifficulty : Option String
  botSide : Option String
  exhibition : Bool
  botP1Difficulty : Option String
  botP2Difficulty : Option String
  p1Token : Option String
  p2Token : Option String
  p1 : Option String
  p2 : Option String
deriving Repr, DecidableEq

/-- `game.turn >= game.maxTurns` in JS: comparison with `undefined` is
always false, so a game without a `maxTurns` field never reaches the
turn-limit end. -/
def turnLimitReached (turn : Nat) (maxTurns : Option Nat) : Bool :=
  match maxTurns with
  | some m => turn ≥ m
  | none => false

/-- `resolveTurn(game)` (lines 624-762): runs the move rules, updates
scores, applies the single-scorer distance reset, increments the turn,
clears the pending moves and runs the win-condition check, returning the
updated game and the narrative. -/
def resolveTurn (g : Game) (rand : Bool) : Game × String :=
  let o := resolveMoves g.movesP1 g.movesP2 g.distance rand
  -- Update scores
  let scoresP1 := if o.scoreP1 then g.scoresP1 + 1 else g.scoresP1
  let scoresP2 := if o.scoreP2 then g.scoresP2 + 1 else g.scoresP2
  -- Reset distance if someone scored (except double hit)
  let oneScorer := (o.scoreP1 = true ∨ o.scoreP2 = true) ∧ ¬ (o.scoreP1 = true ∧ o.scoreP2 = true)
  let newDistance := if oneScorer then (4 : Int) else o.newDistance
  let result := if oneScorer then o.result ++ " Distance resets to 4." else o.result
  let turn := g.turn + 1
  -- Check win conditions
  let wp : Option String × String :=
    if scoresP1 ≥ 3 ∧ scoresP2 ≥ 3 then (some "sudden_death", "over")
    else if scoresP1 ≥ 3 then (some "p1", "over")
    else if scoresP2 ≥ 3 then (some "p2", "over")
    else if turnLimitReached turn g.maxTurns then
      ((if scoresP1 > scoresP2 then some "p1"
        else if scoresP2 > scoresP1 then some "p2"
        else some "sudden_death"), "over")
    else (g.winner, g.phase)
  ({ g with distance := newDistance, turn := turn, lastResult := result,
            movesP1 := none, movesP2 := none,
            scoresP1 := scoresP1, scoresP2 := scoresP2,
            winner := wp.1, phase := wp.2 }, result)

/-- A view of the game for one player (`getGameState`). -/
structure GameStateView where
  turn : Nat
  distance : Int
  score : Nat
  oppScore : Nat
  lastResult : String
  phase : String
  winner : Option String
  maxTurns : Option Nat
deriving Repr, DecidableEq

/-- `getGameState(game, playerId)` from the source. -/
def getGameState (g : Game) (playerId : String) : GameStateView :=
  { turn := g.turn, distance := g.distance,
    score := if playerId = "p1" then g.scoresP1 else g.scoresP2,
    oppScore := if playerId = "p1" then g.scoresP2 else g.scoresP1,
    lastResult := g.lastResult, phase := g.phase, winner := g.winner,
    maxTurns := g.maxTurns }

/-- `compactState(game, playerId)`: the one-string display of the state. -/
def compactState (g : Game) (playerId : String) : String :=
  let st := getGameState g playerId
  let header := "SHELLSWORD | Touch " ++ toString st.score ++ "-" ++ toString st.oppScore ++
    " | Dist:" ++ toString st.distance ++ " | Turn " ++ toString st.turn ++ "/" ++
    (match st.maxTurns with | some m => toString m | none => "undefined")
  let lines := [header] ++
    (if st.lastResult ≠ "" then ["last: " ++ st.lastResult] else []) ++
    ["valid: advance/retreat/lunge/parry"] ++
    (if st.phase = "over" then
      [ "GAME OVER: " ++
        (if st.winner = some "p1" ∧ playerId = "p1" then "You WIN!"
         else if st.winner = some "p2" ∧ playerId = "p2" then "You WIN!"
         else if st.winner = some "sudden_death" then "SUDDEN DEATH required!"
         else "You lose.") ]
     else [])
  String.intercalate "\x0a" lines

/-- `botMove(state, difficulty)`.  Each `Math.random()` call in a branch is
an independent draw, passed in here as `r4` (the `easy` index draw) and the
booleans `b1`, `b2` (the successive threshold comparisons on that path). -/
def botMove (state : GameStateView) (difficulty : String) (r4 : Fin 4)
    (b1 b2 : Bool) : String :=
  let moves := ["advance", "retreat", "lunge", "parry"]
  if difficulty = "easy" then
    moves.getD r4.val "advance"
  else if difficulty = "medium" then
    if state.distance = 1 then (if b1 then "lunge" else "parry")
    else if state.distance = 2 then
      (if b1 then "lunge" else if b2 then "advance" else "parry")
    else (if b1 then "advance" else "retreat")
  else if difficulty = "hard" then
    if state.distance = 1 then (if b1 then "lunge" else "parry")
    else if state.distance = 2 then
      (if state.score < state.oppScore then (if b1 then "lunge" else "advance")
       else (if b1 then "lunge" else if b2 then "advance" else "parry"))
    else (if b1 then "advance" else "retreat")
  else "advance"

/-- JS `Map.set` on an association list: replace in place, or append. -/
def mapSet {κ α : Type} [DecidableEq κ] (k : κ) (v : α) :
    List (κ × α) → List (κ × α)
  | [] => [(k, v)]
  | (k', v') :: rest => if k' = k then (k, v) :: rest else (k', v') :: mapSet k v rest

/-- JS `Map.get` on an association list. -/
def mapGet {κ α : Type} [DecidableEq κ] (k : κ) : List (κ × α) → Option α
  | [] => none
  | (k', v) :: rest => if k' = k then some v else mapGet k rest

/-- One matchmaking-queue entry. -/
structure QueueEntry where
  token : String
  name : String
  ip : String
  timestamp : Nat
deriving Repr, DecidableEq

/-- `QUEUE_TIMEOUT_MS` (5 minutes). -/
def QUEUE_TIMEOUT_MS : Nat := 300000

/-- `TURN_TIMEOUT_MS` (5 minutes). -/
def TURN_TIMEOUT_MS : Nat := 300000

/-- The stale-entry purge loop at the top of `POST /api/join`:
`while (queue.length > 0 && now - queue[0].timestamp > QUEUE_TIMEOUT_MS) queue.shift()`. -/
def purgeStale (now : Nat) : List QueueEntry → List QueueEntry
  | [] => []
  | e :: rest =>
    if now - e.timestamp > QUEUE_TIMEOUT_MS then purgeStale now rest else e :: rest

/-- `queue.findIndex(q => q.name !== name || q.ip !== ip)` followed by
`queue.splice(idx, 1)`: the first entry whose (name, ip) pair differs from
the requester's, together with the queue with that entry removed. -/
def selectOpponent (name ip : String) :
    List QueueEntry → Option (QueueEntry × List QueueEntry)
  | [] => none
  | e :: rest =>
    if e.name ≠ name ∨ e.ip ≠ ip then some (e, rest)
    else
      match selectOpponent name ip rest with
      | some (o, rest') => some (o, e :: rest')
      | none => none

/-- A `players`-map binding: token → game, side and display name. -/
structure PlayerInfo where
  gameId : GameId
  playerId : String
  name : Option String
deriving Repr, DecidableEq

/-- One entry of the `completedGames` recent history (`archiveGame`). -/
structure Summary where
  id : GameId
  winner : Option String
  turns : Nat
  p1Name : String
  p2Name : String
  finalScore : String
  timestamp : Nat
deriving Repr, DecidableEq

/-- The mutable server registries: `games`, `players`, `queue`,
`completedGames`, `gameIdCounter`, plus a counter used to mint fresh
`setTimeout` handles for the model of the turn timer. -/
structure ServerState where
  games : List (GameId × Game)
  players : List (String × PlayerInfo)
  queue : List QueueEntry
  completedGames : List Summary
  gameIdCounter : Nat
  nextTimerId : Nat
deriving Repr, DecidableEq

/-- `createGame(id)` from the source. -/
def createGame (id : GameId) : Game :=
  { id := id, phase := "input", turn := 0, distance := 4,
    scoresP1 := 0, scoresP2 := 0, movesP1 := none, movesP2 := none,
    lastResult := "", winner := none, p1Name := "", p2Name := "",
    maxTurns := some 30, timerId := none,
    botDifficulty := none, botSide := none, exhibition := false,
    botP1Difficulty := none, botP2Difficulty := none,
    p1Token := none, p2Token := none, p1 := none, p2 := none }

/-- `archiveGame(game)`: push a summary of the finished game onto
`completedGames`, dropping the oldest entry beyond 100. -/
def archivePush (g : Game) (now : Nat) (l : List Summary) : List Summary :=
  let l' := l ++ [{ id := g.id, winner := g.winner, turns := g.turn,
                    p1Name := if g.p1Name = "" then "P1" else g.p1Name,
                    p2Name := if g.p2Name = "" then "P2" else g.p2Name,
                    finalScore := toString g.scoresP1 ++ "-" ++ toString g.scoresP2,
                    timestamp := now }]
  if l'.length > 100 then l'.drop 1 else l'

/-- `startTurnTimer(gameId)`: arm a fresh `setTimeout` handle on the game
(modelled by stamping the game with a fresh timer id from `nextTimerId`),
provided the game exists and is in the `input` phase. -/
def startTurnTimerS (gid : GameId) (s : ServerState) : ServerState :=
  match mapGet gid s.games with
  | none => s
  | some g =>
    if g.phase ≠ "input" then s
    else { s with games := mapSet gid { g with timerId := some s.nextTimerId } s.games,
                  nextTimerId := s.nextTimerId + 1 }

/-- `resolveIfReady(gameId)` (synchronous part): if the game exists, is in
the `input` phase and both moves are present, clear the turn timer, run
`resolveTurn`, then either rearm the timer (still playing) or archive the
finished game.  The 200ms bot follow-up it schedules is a separate event
(`botFollowUp`); persistence and waiter notification are external
side effects with no bearing on the registries. -/
def resolveIfReadyS (gid : GameId) (rand : Bool) (now : Nat) (s : ServerState) :
    ServerState × Option String :=
  match mapGet gid s.games with
  | none => (s, none)
  | some g =>
    if g.phase ≠ "input" then (s, none)
    else if g.movesP1 = none ∨ g.movesP2 = none then (s, none)
    else
      -- Clear turn timer (clearTimeout before resolveTurn)
      let g0 := { g with timerId := none }
      let r := resolveTurn g0 rand
      if r.1.phase ≠ "over" then
        let g2 := { r.1 with phase := "input" }
        let s1 := { s with games := mapSet gid g2 s.games }
        (startTurnTimerS gid s1, some r.2)
      else
        ({ s with games := mapSet gid r.1 s.games,
                  completedGames := archivePush r.1 now s.completedGames }, some r.2)

/-- The `setTimeout` callback armed by `startTurnTimer`: it runs only if
its handle `tid` is still the game's armed timer (a cleared or replaced
handle was `clearTimeout`-ed, so its callback never fires), injects
`advance` for any missing move, and resolves. -/
def timerFire (gid : GameId) (tid : Nat) (rand : Bool) (now : Nat)
    (s : ServerState) : ServerState :=
  match mapGet gid s.games with
  | none => s
  | some g =>
    if g.timerId ≠ some tid then s
    else
      let g1 := { g with
        movesP1 := match g.movesP1 with | none => some "advance" | some m => some m,
        movesP2 := match g.movesP2 with | none => some "advance" | some m => some m }
      (resolveIfReadyS gid rand now { s with games := mapSet gid g1 s.games }).1

/-- The 200ms bot follow-up scheduled by `resolveIfReady` for practice
games: pick the bot's move for its side and resolve again. -/
def botFollowUp (gid : GameId) (r4 : Fin 4) (b1 b2 : Bool) (rand : Bool)
    (now : Nat) (s : ServerState) : ServerState :=
  match mapGet gid s.games with
  | none => s
  | some g =>
    match g.botDifficulty with
    | none => s
    | some dif =>
      let side := g.botSide.getD "p2"
      let bm := botMove (getGameState g side) dif r4 b1 b2
      let g1 := if side = "p1" then { g with movesP1 := some bm }
                else { g with movesP2 := some bm }
      (resolveIfReadyS gid rand now { s with games := mapSet gid g1 s.games }).1

/-- `matchPlayers(token1, name1, token2, name2)`: mint id `g<counter>`,
create the game, bind both tokens, arm the turn timer. -/
def matchPlayers (token1 name1 token2 name2 : String) (s : ServerState) :
    GameId × ServerState :=
  let id := GameId.g s.gameIdCounter
  let game := { createGame id with
    phase := "input", p1Token := some token1, p2Token := some token2,
    p1Name := name1, p2Name := name2 }
  let s1 := { s with
    gameIdCounter := s.gameIdCounter + 1,
    games := mapSet id game s.games,
    players := mapSet token2 { gameId := id, playerId := "p2", name := some name2 }
      (mapSet token1 { gameId := id, playerId := "p1", name := some name1 } s.players) }
  (id, startTurnTimerS id s1)

/-- Responses of `POST /api/join` seen by the new joiner: `matched`,
`waiting` (non-blocking), or `deferred` (blocking long-poll registered). -/
inductive JoinResp where
  | matched (token : String) (gameId : GameId) (playerId : String) (opponent : String)
  | waiting (token : String)
  | deferred (token : String)
deriving Repr, DecidableEq

/-- `POST /api/join`: purge the stale prefix of the queue, scan for the
first entry whose (name, ip) pair differs from the requester's, and either
pair up or append to the queue.  The freshly generated token is a
parameter (`genToken` is random). -/
def postJoin (name ip : String) (wait : Bool) (token : String) (now : Nat)
    (s : ServerState) : JoinResp × ServerState :=
  let q1 := purgeStale now s.queue
  match selectOpponent name ip q1 with
  | some (opp, q2) =>
    let r := matchPlayers opp.token opp.name token name { s with queue := q2 }
    (.matched token r.1 "p2" opp.name, r.2)
  | none =>
    let entry : QueueEntry := { token := token, name := name, ip := ip, timestamp := now }
    let s' := { s with queue := q1 ++ [entry] }
    (if wait then .deferred token else .waiting token, s')

/-- Responses of `POST /api/move`. -/
inductive MoveResp where
  | errTokenRequired
  | errMoveRequired
  | errUnknownToken
  | errGameNotFound
  | gameOver (winner : Option String) (turns : Nat) (state : String)
  | errNotInputPhase
  | errAlreadySubmitted
  | errInvalidMove
  | resolved (status : String) (turn : Nat) (state : String) (winner : Option String)
  | waitingForOpponent
deriving Repr, DecidableEq

/-- Marks the `POST /api/move` outcomes that are structured error
rejections (HTTP 4xx in the source). -/
def MoveResp.isClientError : MoveResp → Bool
  | .errTokenRequired => true
  | .errMoveRequired => true
  | .errUnknownToken => true
  | .errGameNotFound => true
  | .errNotInputPhase => true
  | .errAlreadySubmitted => true
  | .errInvalidMove => true
  | _ => false

/-- `POST /api/move`: token/move presence checks, token lookup, terminal
response when the game is over, double-submission and legality checks;
then record the move, fill in the practice bot's move, and resolve when
both moves are present.  `rand`, `r4`, `b1`, `b2` are the random draws
consumed on the success path; the blocking `wait` variant only defers the
response, so it is not modelled separately. -/
def postMove (token move : Option String) (rand : Bool) (r4 : Fin 4)
    (b1 b2 : Bool) (now : Nat) (s : ServerState) : MoveResp × ServerState :=
  match token with
  | none => (.errTokenRequired, s)
  | some tok =>
  match move with
  | none => (.errMoveRequired, s)
  | some mv =>
  match mapGet tok s.players with
  | none => (.errUnknownToken, s)
  | some info =>
  match mapGet info.gameId s.games with
  | none => (.errGameNotFound, s)
  | some g =>
  if g.phase = "over" then
    (.gameOver g.winner g.turn (compactState g info.playerId), s)
  else if g.phase ≠ "input" then (.errNotInputPhase, s)
  else if (if info.playerId = "p1" then g.movesP1 else g.movesP2).isSome then
    (.errAlreadySubmitted, s)
  else if ¬ validateMove mv then (.errInvalidMove, s)
  else
    let g1 := if info.playerId = "p1" then { g with movesP1 := some mv }
              else { g with movesP2 := some mv }
    -- Bot auto-move for practice mode
    let botSide := g1.botSide.getD "p2"
    let g2 :=
      if g1.botDifficulty.isSome ∧
         (if botSide = "p1" then g1.movesP1 else g1.movesP2) = none then
        let bm := botMove (getGameState g1 botSide) (g1.botDifficulty.getD "medium") r4 b1 b2
        if botSide = "p1" then { g1 with movesP1 := some bm }
        else { g1 with movesP2 := some bm }
      else g1
    let s1 := { s with games := mapSet info.gameId g2 s.games }
    if g2.movesP1.isSome ∧ g2.movesP2.isSome then
      let s2 := (resolveIfReadyS info.gameId rand now s1).1
      match mapGet info.gameId s2.games with
      | none => (.errGameNotFound, s2)
      | some g3 =>
        (.resolved (if g3.phase = "over" then "game_over" else "resolved")
          g3.turn (compactState g3 info.playerId) g3.winner, s2)
    else
      (.waitingForOpponent, s1)

/-- Responses of `GET /api/state/:token`. -/
inductive StateResp where
  | errUnknownToken
  | errGameNotFound
  | ok (status : String) (turn : Nat) (phase : String) (state : String)
       (winner : Option String) (gameId : GameId) (playerId : String)
deriving Repr, DecidableEq

/-- `GET /api/state/:token` (read-only). -/
def getStateH (token : String) (s : ServerState) : StateResp :=
  match mapGet token s.players with
  | none => .errUnknownToken
  | some info =>
  match mapGet info.gameId s.games with
  | none => .errGameNotFound
  | some g =>
    .ok
      (if g.phase = "over" then "game_over"
       else if (if info.playerId = "p1" then g.movesP1 else g.movesP2).isSome then
         "waiting_for_opponent"
       else "your_turn")
      g.turn g.phase (compactState g info.playerId) g.winner info.gameId info.playerId

/-- `POST /api/practice`: mint id `bot_<counter>`, post-increment the
counter, create the bot game, bind the player token, arm the timer. -/
def postPractice (difficulty name token : String) (s : ServerState) :
    GameId × ServerState :=
  let id := GameId.bot s.gameIdCounter
  let game := { createGame id with
    phase := "input", botDifficulty := some difficulty, botSide := some "p2",
    p1Name := name, p2Name := "Bot(" ++ difficulty ++ ")", p1Token := some token }
  let s1 := { s with
    gameIdCounter := s.gameIdCounter + 1,
    games := mapSet id game s.games,
    players := mapSet token { gameId := id, playerId := "p1", name := some name } s.players }
  (id, startTurnTimerS id s1)

/-- `POST /api/exhibition`: refuse if an exhibition is already running,
otherwise mint id `ex_<++counter>` (pre-increment) and create a bot-vs-bot
game.  The exhibition game object is built literally, without `maxTurns`
and without a turn timer. -/
def postExhibition (tok1 tok2 d1 d2 : String) (s : ServerState) :
    Option GameId × ServerState :=
  if s.games.any (fun p => p.2.exhibition ∧ p.2.phase ≠ "over") then (none, s)
  else
    let c := s.gameIdCounter + 1
    let id := GameId.ex c
    let game : Game :=
      { id := id, phase := "input", turn := 0, distance := 4,
        scoresP1 := 0, scoresP2 := 0, movesP1 := none, movesP2 := none,
        lastResult := "", winner := none,
        p1Name := "Bot(" ++ d1 ++ ")", p2Name := "Bot(" ++ d2 ++ ")",
        maxTurns := none, timerId := none,
        botDifficulty := none, botSide := none, exhibition := true,
        botP1Difficulty := some d1, botP2Difficulty := some d2,
        p1Token := none, p2Token := none, p1 := some tok1, p2 := some tok2 }
    let s1 := { s with
      gameIdCounter := c,
      games := mapSet id game s.games,
      players := mapSet tok2 { gameId := id, playerId := "p2", name := none }
        (mapSet tok1 { gameId := id, playerId := "p1", name := none } s.players) }
    (some id, s1)

/-- One `playExhibitionTurn` step: both bots pick moves, then resolve. -/
def exhibitionTurn (gid : GameId) (r4a : Fin 4) (b1a b2a : Bool)
    (r4b : Fin 4) (b1b b2b : Bool) (rand : Bool) (now : Nat)
    (s : ServerState) : ServerState :=
  match mapGet gid s.games with
  | none => s
  | some g =>
    if g.phase = "over" then s
    else
      let m1 := botMove (getGameState g "p1") (g.botP1Difficulty.getD "medium") r4a b1a b2a
      let m2 := botMove (getGameState g "p2") (g.botP2Difficulty.getD "medium") r4b b1b b2b
      let g1 := { g with movesP1 := some m1, movesP2 := some m2 }
      (resolveIfReadyS gid rand now { s with games := mapSet gid g1 s.games }).1

/-- One row of the `games` table, with the `state_json` fields inlined. -/
structure GameRow where
  id : GameId
  p1Name : String
  p2Name : String
  turn : Nat
  phase : String
  winner : Option String
  updatedAt : Nat
  distance : Int
  scoresP1 : Nat
  scoresP2 : Nat
  movesP1 : Option String
  movesP2 : Option String
  lastResult : String
  maxTurns : Option Nat
  botDifficulty : Option String
  botSide : Option String
  exhibition : Bool
  botP1Difficulty : Option String
  botP2Difficulty : Option String
  p1Token : Option String
  p2Token : Option String
  p1 : Option String
  p2 : Option String
deriving Repr, DecidableEq

/-- `loadGameFromDB(row)`: rebuild a game from its row.  JS
`state.maxTurns || 30` turns both a missing and a zero value into 30. -/
def loadGameFromDB (row : GameRow) : Game :=
  { createGame row.id with
    p1Name := row.p1Name, p2Name := row.p2Name,
    turn := row.turn, phase := row.phase, winner := row.winner,
    distance := row.distance, scoresP1 := row.scoresP1, scoresP2 := row.scoresP2,
    movesP1 := row.movesP1, movesP2 := row.movesP2, lastResult := row.lastResult,
    maxTurns := some (match row.maxTurns with | none => 30 | some 0 => 30 | some m => m),
    botDifficulty := row.botDifficulty, botSide := row.botSide,
    exhibition := row.exhibition,
    botP1Difficulty := row.botP1Difficulty, botP2Difficulty := row.botP2Difficulty,
    p1Token := row.p1Token, p2Token := row.p2Token, p1 := row.p1, p2 := row.p2,
    timerId := none }

/-- The numeric value the counter-restore code extracts from one id:
`id.match(/^g(\d+)$/)` gives the suffix for `g<n>` ids and 0 otherwise. -/
def gIdNum : GameId → Nat
  | .g n => n
  | _ => 0

/-- `Math.max(...liveIds, ...completedIds, 0) + 1` over the extracted
suffixes: the restored `gameIdCounter`. -/
def loadCounter (liveIds completedIds : List GameId) : Nat :=
  ((liveIds ++ completedIds).map gIdNum).foldr max 0 + 1

/-- Insertion step of a sort by `updatedAt` descending (the SQL
`ORDER BY updated_at DESC` of `getCompletedGamesStmt`). -/
def insertDesc (r : GameRow) : List GameRow → List GameRow
  | [] => [r]
  | x :: xs => if r.updatedAt ≥ x.updatedAt then r :: x :: xs else x :: insertDesc r xs

/-- Sort rows by `updatedAt` descending. -/
def sortByUpdatedDesc : List GameRow → List GameRow
  | [] => []
  | r :: rs => insertDesc r (sortByUpdatedDesc rs)

/-- The summary pushed onto `completedGames` for one archived row. -/
def rowSummary (r : GameRow) : Summary :=
  { id := r.id, winner := r.winner, turns := r.turn,
    p1Name := r.p1Name, p2Name := r.p2Name,
    finalScore := toString r.scoresP1 ++ "-" ++ toString r.scoresP2,
    timestamp := r.updatedAt }

/-- The loop body of the active-game restore in `loadDataFromDB`: load the
game, restore the token bindings (exhibition tokens only when the
`exhibition` flag is set), and restart the turn timer for `input` games. -/
def loadOneGame (row : GameRow) (s : ServerState) : ServerState :=
  let game := loadGameFromDB row
  let bind := fun (t : String) (pid : String) (nm : Option String)
      (l : List (String × PlayerInfo)) =>
    mapSet t { gameId := game.id, playerId := pid, name := nm } l
  let s1 := { s with games := mapSet game.id game s.games }
  let s2 := match game.p1Token with
    | some t => { s1 with players := bind t "p1" (some game.p1Name) s1.players }
    | none => s1
  let s3 := match game.p2Token with
    | some t => { s2 with players := bind t "p2" (some game.p2Name) s2.players }
    | none => s2
  let s4 := match game.p1 with
    | some t =>
      if game.exhibition then { s3 with players := bind t "p1" none s3.players } else s3
    | none => s3
  let s5 := match game.p2 with
    | some t =>
      if game.exhibition then { s4 with players := bind t "p2" none s4.players } else s4
    | none => s4
  if game.phase = "input" then startTurnTimerS game.id s5 else s5

/-- `loadDataFromDB()`: restore the non-`over` games (the SQL filter of
`loadActiveGamesStmt`), the still-fresh queue entries, the 100 most
recently updated archived summaries, and the id counter. -/
def loadData (rows : List GameRow) (queueRows : List QueueEntry) (now : Nat) :
    ServerState :=
  let s0 : ServerState :=
    { games := [], players := [], queue := [], completedGames := [],
      gameIdCounter := 1, nextTimerId := 0 }
  let active := rows.filter (fun r => r.phase ≠ "over")
  let s1 := active.foldl (fun s r => loadOneGame r s) s0
  let completed := (sortByUpdatedDesc (rows.filter (fun r => r.phase = "over"))).take 100
  { s1 with
    queue := queueRows.filter (fun r => now - r.timestamp < QUEUE_TIMEOUT_MS),
    completedGames := completed.map rowSummary,
    gameIdCounter := loadCounter (s1.games.map (fun p => p.1)) (completed.map (fun r => r.id)) }

/-! ## Helper lemmas about `resolveTurn` -/

/-- For legal moves and a distance in [1,6], the distance computed by the
move-resolution rules stays in [1,6]. -/
theorem resolveMoves_bounds (m1 m2 : String) (h1 : m1 ∈ validMoves)
    (h2 : m2 ∈ validMoves) (d : Int) (hd1 : 1 ≤ d) (hd2 : d ≤ 6) (r : Bool) :
    1 ≤ (resolveMoves (some m1) (some m2) d r).newDistance ∧
      (resolveMoves (some m1) (some m2) d r).newDistance ≤ 6 := by
  have hd : d = 1 ∨ d = 2 ∨ d = 3 ∨ d = 4 ∨ d = 5 ∨ d = 6 := by omega
  fin_cases h1 <;> fin_cases h2 <;>
    rcases hd with rfl | rfl | rfl | rfl | rfl | rfl <;> cases r <;> decide

/-- The distance written back by `resolveTurn` is the rule result, with
the single-scorer reset applied. -/
theorem resolveTurn_distance_eq (g : Game) (rand : Bool) :
    (resolveTurn g rand).1.distance =
      (if ((resolveMoves g.movesP1 g.movesP2 g.distance rand).scoreP1 = true ∨
           (resolveMoves g.movesP1 g.movesP2 g.distance rand).scoreP2 = true) ∧
          ¬ ((resolveMoves g.movesP1 g.movesP2 g.distance rand).scoreP1 = true ∧
             (resolveMoves g.movesP1 g.movesP2 g.distance rand).scoreP2 = true)
       then (4 : Int)
       else (resolveMoves g.movesP1 g.movesP2 g.distance rand).newDistance) := rfl

/-- `resolveTurn` increments the turn number by exactly one. -/
theorem resolveTurn_turn_eq (g : Game) (rand : Bool) :
    (resolveTurn g rand).1.turn = g.turn + 1 := rfl

/-- `resolveTurn` clears the pending move of player 1. -/
theorem resolveTurn_movesP1_eq (g : Game) (rand : Bool) :
    (resolveTurn g rand).1.movesP1 = none := rfl

/-- `resolveTurn` clears the pending move of player 2. -/
theorem resolveTurn_movesP2_eq (g : Game) (rand : Bool) :
    (resolveTurn g rand).1.movesP2 = none := rfl

/-- Player 1's score after `resolveTurn`, in terms of the rule output. -/
theorem resolveTurn_scoresP1_eq (g : Game) (rand : Bool) :
    (resolveTurn g rand).1.scoresP1 =
      if (resolveMoves g.movesP1 g.movesP2 g.distance rand).scoreP1 = true
      then g.scoresP1 + 1 else g.scoresP1 := rfl

/-- Player 2's score after `resolveTurn`, in terms of the rule output. -/
theorem resolveTurn_scoresP2_eq (g : Game) (rand : Bool) :
    (resolveTurn g rand).1.scoresP2 =
      if (resolveMoves g.movesP1 g.movesP2 g.distance rand).scoreP2 = true
      then g.scoresP2 + 1 else g.scoresP2 := rfl

/-! ## Witness games -/

/-- A fresh matchmade game with moves lunge/retreat pending. -/
def wGameLungeRetreat : Game :=
  { createGame (GameId.g 1) with movesP1 := some "lunge", movesP2 := some "retreat" }

/-- A 2-2 game at distance 1 with both lunging: the double-hit ending. -/
def wGameDoubleHit : Game :=
  { createGame (GameId.g 2) with
    distance := 1, scoresP1 := 2, scoresP2 := 2,
    movesP1 := some "lunge", movesP2 := some "lunge" }

/-- A game at distance 3 with moves lunge/retreat pending. -/
def wGameLunge3 : Game :=
  { createGame (GameId.g 3) with
    distance := 3, movesP1 := some "lunge", movesP2 := some "retreat" }

/-- A game at distance 2 with both players lunging. -/
def wGameBothLunge2 : Game :=
  { createGame (GameId.g 4) with
    distance := 2, movesP1 := some "lunge", movesP2 := some "lunge" }

/-! ## Claim theorems -/

/-- C1: for every pair of legal moves and every distance in [1,6],
`resolveTurn` is total (it is a total Lean function over all inputs, so it
can never throw) and the distance it writes back into the game state is in
[1,6]. -/
theorem c1_resolveTurn_distance_in_range (g : Game) (rand : Bool) (m1 m2 : String)
    (h1 : m1 ∈ validMoves) (h2 : m2 ∈ validMoves)
    (hm1 : g.movesP1 = some m1) (hm2 : g.movesP2 = some m2)
    (hd1 : 1 ≤ g.distance) (hd2 : g.distance ≤ 6) :
    1 ≤ (resolveTurn g rand).1.distance ∧ (resolveTurn g rand).1.distance ≤ 6 := by
  rw [resolveTurn_distance_eq, hm1, hm2]
  split_ifs
  · exact ⟨by norm_num, by norm_num⟩
  · exact resolveMoves_bounds m1 m2 h1 h2 g.distance hd1 hd2 rand

/-- Witness for C1 at a concrete game (moves lunge/retreat, distance 4). -/
theorem c1_witness :
    1 ≤ (resolveTurn wGameLungeRetreat true).1.distance ∧
      (resolveTurn wGameLungeRetreat true).1.distance ≤ 6 :=
  c1_resolveTurn_distance_in_range wGameLungeRetreat true "lunge" "retreat"
    (by decide) (by decide) rfl rfl (by decide) (by decide)

/-- C2: after every resolution the win conditions are checked in the fixed
order of the source — both post-resolution scores ≥ 3 gives winner
`sudden_death` (never `p1` or `p2`); otherwise a single score ≥ 3 makes
that side the winner; otherwise a turn count reaching `maxTurns` gives the
higher score the win with a tie going to `sudden_death`; each of these
sets the phase to `over` inside the same `resolveTurn` application (so no
state with the turn resolved but the win check unrun is observable), and
when none fires the phase and winner are untouched. -/
theorem c2_win_conditions_in_order (g : Game) (rand : Bool) (M : Nat)
    (hmax : g.maxTurns = some M) :
    ((resolveTurn g rand).1.scoresP1 ≥ 3 ∧ (resolveTurn g rand).1.scoresP2 ≥ 3 →
       (resolveTurn g rand).1.winner = some "sudden_death" ∧
       (resolveTurn g rand).1.phase = "over") ∧
    ((resolveTurn g rand).1.scoresP1 ≥ 3 ∧ (resolveTurn g rand).1.scoresP2 < 3 →
       (resolveTurn g rand).1.winner = some "p1" ∧
       (resolveTurn g rand).1.phase = "over") ∧
    ((resolveTurn g rand).1.scoresP2 ≥ 3 ∧ (resolveTurn g rand).1.scoresP1 < 3 →
       (resolveTurn g rand).1.winner = some "p2" ∧
       (resolveTurn g rand).1.phase = "over") ∧
    ((resolveTurn g rand).1.scoresP1 < 3 ∧ (resolveTurn g rand).1.scoresP2 < 3 ∧
       (resolveTurn g rand).1.turn ≥ M →
       (resolveTurn g rand).1.phase = "over" ∧
       ((resolveTurn g rand).1.scoresP1 > (resolveTurn g rand).1.scoresP2 →
          (resolveTurn g rand).1.winner = some "p1") ∧
       ((resolveTurn g rand).1.scoresP2 > (resolveTurn g rand).1.scoresP1 →
          (resolveTurn g rand).1.winner = some "p2") ∧
       ((resolveTurn g rand).1.scoresP1 = (resolveTurn g rand).1.scoresP2 →
          (resolveTurn g rand).1.winner = some "sudden_death")) ∧
    ((resolveTurn g rand).1.scoresP1 < 3 ∧ (resolveTurn g rand).1.scoresP2 < 3 ∧
       (resolveTurn g rand).1.turn < M →
       (resolveTurn g rand).1.phase = g.phase ∧
       (resolveTurn g rand).1.winner = g.winner) := by
  simp only [resolveTurn, turnLimitReached, hmax]
  split_ifs <;> simp_all <;> omega

/-- Witness for C2: the 2-2 double hit reaches 3-3 and the winner is
`sudden_death`, not a side. -/
theorem c2_witness :
    (resolveTurn wGameDoubleHit true).1.winner = some "sudden_death" ∧
      (resolveTurn wGameDoubleHit true).1.phase = "over" :=
  (c2_win_conditions_in_order wGameDoubleHit true 30 rfl).1 ⟨by decide, by decide⟩

/-- C3: whenever exactly one side scores, the resulting distance is forced
to 4 regardless of the value computed by the move rules; in the double-hit
case (both lunge at distance 1) both score, no reset happens, and the
distance stays 1. -/
theorem c3_single_scorer_reset_double_hit_no_reset (g : Game) (rand : Bool) :
    (((resolveMoves g.movesP1 g.movesP2 g.distance rand).scoreP1 = true ∨
      (resolveMoves g.movesP1 g.movesP2 g.distance rand).scoreP2 = true) ∧
     ¬ ((resolveMoves g.movesP1 g.movesP2 g.distance rand).scoreP1 = true ∧
        (resolveMoves g.movesP1 g.movesP2 g.distance rand).scoreP2 = true) →
      (resolveTurn g rand).1.distance = 4) ∧
    (g.movesP1 = some "lunge" → g.movesP2 = some "lunge" → g.distance = 1 →
      (resolveTurn g rand).1.distance = 1 ∧
      (resolveTurn g rand).1.scoresP1 = g.scoresP1 + 1 ∧
      (resolveTurn g rand).1.scoresP2 = g.scoresP2 + 1) := by
  constructor
  · intro h
    rw [resolveTurn_distance_eq, if_pos h]
  · intro h1 h2 hd
    have e1 : (resolveMoves g.movesP1 g.movesP2 g.distance rand).scoreP1 = true := by
      rw [h1, h2, hd]; cases rand <;> decide
    have e2 : (resolveMoves g.movesP1 g.movesP2 g.distance rand).scoreP2 = true := by
      rw [h1, h2, hd]; cases rand <;> decide
    have e3 : (resolveMoves g.movesP1 g.movesP2 g.distance rand).newDistance = 1 := by
      rw [h1, h2, hd]; cases rand <;> decide
    refine ⟨?_, ?_, ?_⟩
    · rw [resolveTurn_distance_eq]
      simp [e1, e2, e3]
    · rw [resolveTurn_scoresP1_eq, if_pos e1]
    · rw [resolveTurn_scoresP2_eq, if_pos e2]

/-- Witness for C3 at the concrete double-hit game: no reset, distance 1,
both scores incremented. -/
theorem c3_witness :
    (resolveTurn wGameDoubleHit true).1.distance = 1 ∧
      (resolveTurn wGameDoubleHit true).1.scoresP1 = wGameDoubleHit.scoresP1 + 1 ∧
      (resolveTurn wGameDoubleHit true).1.scoresP2 = wGameDoubleHit.scoresP2 + 1 :=
  (c3_single_scorer_reset_double_hit_no_reset wGameDoubleHit true).2 rfl rfl rfl

/-- C7: a lunge at distance ≥ 3 against a non-lunge, non-parry move misses
and scores nothing for either side; the whiff penalty (−1) and the other
side's own movement both apply, each step clamped (so an opposing advance
lands on `max 1 (d − 2)` and an opposing retreat cancels back to `d`); in
particular at distance 3 against a retreat the distance is unchanged and
neither side scores. -/
theorem c7_whiff_penalty_stacks_with_movement (d : Int) (hd : 3 ≤ d) (hd6 : d ≤ 6)
    (rand : Bool) (other : String)
    (hother : other = "advance" ∨ other = "retreat") :
    ((resolveMoves (some "lunge") (some other) d rand).scoreP1 = false ∧
     (resolveMoves (some "lunge") (some other) d rand).scoreP2 = false ∧
     (resolveMoves (some other) (some "lunge") d rand).scoreP1 = false ∧
     (resolveMoves (some other) (some "lunge") d rand).scoreP2 = false) ∧
    (other = "advance" →
      (resolveMoves (some "lunge") (some other) d rand).newDistance = max 1 (d - 2) ∧
      (resolveMoves (some other) (some "lunge") d rand).newDistance = max 1 (d - 2)) ∧
    (other = "retreat" →
      (resolveMoves (some "lunge") (some other) d rand).newDistance = d ∧
      (resolveMoves (some other) (some "lunge") d rand).newDistance = d) ∧
    (∀ g : Game, g.movesP1 = some "lunge" → g.movesP2 = some "retreat" →
      g.distance = 3 →
      (resolveTurn g rand).1.distance = 3 ∧
      (resolveTurn g rand).1.scoresP1 = g.scoresP1 ∧
      (resolveTurn g rand).1.scoresP2 = g.scoresP2) := by
  have e : d = 3 ∨ d = 4 ∨ d = 5 ∨ d = 6 := by omega
  refine ⟨?_, ?_, ?_, ?_⟩
  · rcases hother with rfl | rfl <;> rcases e with rfl | rfl | rfl | rfl <;>
      cases rand <;> decide
  · rintro rfl
    rcases e with rfl | rfl | rfl | rfl <;> cases rand <;> decide
  · rintro rfl
    rcases e with rfl | rfl | rfl | rfl <;> cases rand <;> decide
  · intro g hm1 hm2 hdist
    have f1 : (resolveMoves g.movesP1 g.movesP2 g.distance rand).scoreP1 = false := by
      rw [hm1, hm2, hdist]; cases rand <;> decide
    have f2 : (resolveMoves g.movesP1 g.movesP2 g.distance rand).scoreP2 = false := by
      rw [hm1, hm2, hdist]; cases rand <;> decide
    have f3 : (resolveMoves g.movesP1 g.movesP2 g.distance rand).newDistance = 3 := by
      rw [hm1, hm2, hdist]; cases rand <;> decide
    refine ⟨?_, ?_, ?_⟩
    · rw [resolveTurn_distance_eq]
      simp [f1, f2, f3]
    · rw [resolveTurn_scoresP1_eq, if_neg (by simp [f1])]
    · rw [resolveTurn_scoresP2_eq, if_neg (by simp [f2])]

/-- Witness for C7: at distance 3 with moves (lunge, retreat), the whiff
penalty and the retreat cancel and neither side scores. -/
theorem c7_witness :
    (resolveTurn wGameLunge3 true).1.distance = 3 ∧
      (resolveTurn wGameLunge3 true).1.scoresP1 = wGameLunge3.scoresP1 ∧
      (resolveTurn wGameLunge3 true).1.scoresP2 = wGameLunge3.scoresP2 :=
  (c7_whiff_penalty_stacks_with_movement 3 (by decide) (by decide) true "retreat"
    (Or.inr rfl)).2.2.2 wGameLunge3 rfl rfl rfl

/-- C9: when both players lunge at distance ≥ 2, the resolution treats
player 1 as the lunger and player 2's lunge as the inert other move:
player 2 never scores, player 1 scores exactly when the distance is 2 and
the 50% draw hits (never at distance ≥ 3), and the distance evolves as if
player 2 had made no move (whiff to `d − 1` at distance ≥ 3; at distance 2
either the scoring reset to 4 or no change). -/
theorem c9_double_lunge_far_p1_is_lunger (g : Game) (rand : Bool)
    (hm1 : g.movesP1 = some "lunge") (hm2 : g.movesP2 = some "lunge")
    (hd : 2 ≤ g.distance) (hd6 : g.distance ≤ 6) :
    (resolveTurn g rand).1.scoresP2 = g.scoresP2 ∧
    (3 ≤ g.distance →
      (resolveTurn g rand).1.scoresP1 = g.scoresP1 ∧
      (resolveTurn g rand).1.distance = g.distance - 1) ∧
    (g.distance = 2 → rand = true →
      (resolveTurn g rand).1.scoresP1 = g.scoresP1 + 1 ∧
      (resolveTurn g rand).1.distance = 4) ∧
    (g.distance = 2 → rand = false →
      (resolveTurn g rand).1.scoresP1 = g.scoresP1 ∧
      (resolveTurn g rand).1.distance = 2) := by
  have e : g.distance = 2 ∨ g.distance = 3 ∨ g.distance = 4 ∨ g.distance = 5 ∨
      g.distance = 6 := by omega
  refine ⟨?_, ?_, ?_, ?_⟩
  · rw [resolveTurn_scoresP2_eq]
    have : (resolveMoves g.movesP1 g.movesP2 g.distance rand).scoreP2 = false := by
      rcases e with h | h | h | h | h <;> rw [hm1, hm2, h] <;> cases rand <;> decide
    simp [this]
  · intro h3
    have hcase : g.distance = 3 ∨ g.distance = 4 ∨ g.distance = 5 ∨ g.distance = 6 := by
      omega
    have f1 : (resolveMoves g.movesP1 g.movesP2 g.distance rand).scoreP1 = false := by
      rcases hcase with h | h | h | h <;> rw [hm1, hm2, h] <;> cases rand <;> decide
    have f2 : (resolveMoves g.movesP1 g.movesP2 g.distance rand).scoreP2 = false := by
      rcases hcase with h | h | h | h <;> rw [hm1, hm2, h] <;> cases rand <;> decide
    have f3 : (resolveMoves g.movesP1 g.movesP2 g.distance rand).newDistance =
        g.distance - 1 := by
      rcases hcase with h | h | h | h <;> rw [hm1, hm2, h] <;> cases rand <;> decide
    constructor
    · rw [resolveTurn_scoresP1_eq, if_neg (by simp [f1])]
    · rw [resolveTurn_distance_eq]
      simp [f1, f2, f3]
  · intro h2 hr
    subst hr
    have f1 : (resolveMoves g.movesP1 g.movesP2 g.distance true).scoreP1 = true := by
      rw [hm1, hm2, h2]; decide
    have f2 : (resolveMoves g.movesP1 g.movesP2 g.distance true).scoreP2 = false := by
      rw [hm1, hm2, h2]; decide
    constructor
    · rw [resolveTurn_scoresP1_eq, if_pos f1]
    · rw [resolveTurn_distance_eq]
      simp [f1, f2]
  · intro h2 hr
    subst hr
    have f1 : (resolveMoves g.movesP1 g.movesP2 g.distance false).scoreP1 = false := by
      rw [hm1, hm2, h2]; decide
    have f2 : (resolveMoves g.movesP1 g.movesP2 g.distance false).scoreP2 = false := by
      rw [hm1, hm2, h2]; decide
    have f3 : (resolveMoves g.movesP1 g.movesP2 g.distance false).newDistance = 2 := by
      rw [hm1, hm2, h2]; decide
    constructor
    · rw [resolveTurn_scoresP1_eq, if_neg (by simp [f1])]
    · rw [resolveTurn_distance_eq]
      simp [f1, f2, f3]

/-- Witness for C9: both lunge at distance 2 with a hitting draw — only
player 1 scores and the distance resets to 4. -/
theorem c9_witness :
    (resolveTurn wGameBothLunge2 true).1.scoresP2 = wGameBothLunge2.scoresP2 ∧
      (resolveTurn wGameBothLunge2 true).1.scoresP1 = wGameBothLunge2.scoresP1 + 1 ∧
      (resolveTurn wGameBothLunge2 true).1.distance = 4 := by
  have h := c9_double_lunge_far_p1_is_lunger wGameBothLunge2 true rfl rfl
    (by decide) (by decide)
  exact ⟨h.1, h.2.2.1 rfl rfl⟩

/-! ## Association-list map lemmas -/

theorem mapGet_mapSet_self {κ α : Type} [DecidableEq κ] (k : κ) (v : α)
    (l : List (κ × α)) : mapGet k (mapSet k v l) = some v := by
  induction l with
  | nil => simp [mapSet, mapGet]
  | cons hd tl ih =>
    obtain ⟨k', v'⟩ := hd
    by_cases h : k' = k
    · simp [mapSet, h, mapGet]
    · simp [mapSet, h, mapGet, ih]

theorem mapGet_mapSet_ne {κ α : Type} [DecidableEq κ] (k k' : κ) (v : α)
    (l : List (κ × α)) (h : k' ≠ k) : mapGet k' (mapSet k v l) = mapGet k' l := by
  induction l with
  | nil => simp [mapSet, mapGet, Ne.symm h]
  | cons hd tl ih =>
    obtain ⟨k0, v0⟩ := hd
    by_cases h0 : k0 = k
    · subst h0
      simp [mapSet, mapGet, Ne.symm h]
    · simp only [mapSet, if_neg h0, mapGet]
      by_cases h1 : k0 = k'
      · simp [h1]
      · simp [h1, ih]

theorem mapSet_mapSet {κ α : Type} [DecidableEq κ] (k : κ) (v v' : α)
    (l : List (κ × α)) : mapSet k v' (mapSet k v l) = mapSet k v' l := by
  induction l with
  | nil => simp [mapSet]
  | cons hd tl ih =>
    obtain ⟨k0, v0⟩ := hd
    by_cases h0 : k0 = k
    · simp [mapSet, h0]
    · simp [mapSet, h0, ih]

theorem mapSet_self_of_get {κ α : Type} [DecidableEq κ] (k : κ) (v : α)
    (l : List (κ × α)) (h : mapGet k l = some v) : mapSet k v l = l := by
  induction l with
  | nil => simp [mapGet] at h
  | cons hd tl ih =>
    obtain ⟨k0, v0⟩ := hd
    by_cases h0 : k0 = k
    · subst h0
      simp [mapGet] at h
      simp [mapSet, h]
    · simp [mapGet, h0] at h
      simp [mapSet, h0, ih h]

/-- `resolveTurn` does not touch the timer handle. -/
theorem resolveTurn_timerId_eq (g : Game) (rand : Bool) :
    (resolveTurn g rand).1.timerId = g.timerId := rfl

/-! ## Characterization of turn resolution at the server level -/

/-- When the game exists, is in the `input` phase and both moves are
present, `resolveIfReady` clears the timer handle, resolves the turn, and
either rearms a fresh timer (game still running) or archives the game. -/
theorem resolveIfReadyS_ready (gid : GameId) (r : Bool) (n : Nat)
    (s : ServerState) (g : Game) (hg : mapGet gid s.games = some g)
    (hphase : g.phase = "input") (hm1 : g.movesP1.isSome) (hm2 : g.movesP2.isSome) :
    (resolveIfReadyS gid r n s).1 =
      (if ((resolveTurn { g with timerId := none } r).1).phase ≠ "over" then
        { s with
          games := mapSet gid
            { (resolveTurn { g with timerId := none } r).1 with
              phase := "input", timerId := some s.nextTimerId } s.games,
          nextTimerId := s.nextTimerId + 1 }
       else
        { s with
          games := mapSet gid (resolveTurn { g with timerId := none } r).1 s.games,
          completedGames :=
            archivePush (resolveTurn { g with timerId := none } r).1 n
              s.completedGames }) := by
  have hnp : ¬ (g.phase ≠ "input") := by simp [hphase]
  have hnm : ¬ (g.movesP1 = none ∨ g.movesP2 = none) := by
    rcases Option.isSome_iff_exists.mp hm1 with ⟨a, ha⟩
    rcases Option.isSome_iff_exists.mp hm2 with ⟨b, hb⟩
    simp [ha, hb]
  simp only [resolveIfReadyS, hg]
  rw [if_neg hnp, if_neg hnm]
  split_ifs with hov
  · show startTurnTimerS gid _ = _
    simp only [startTurnTimerS, mapGet_mapSet_self]
    rw [if_neg (by simp)]
    rw [mapSet_mapSet]
  · rfl

/-- An armed timer whose game has both moves present fires the very same
resolution as a direct `resolveIfReady` call (the `advance` injection is a
no-op when both moves are there). -/
theorem timerFire_eq_resolveIfReadyS (gid : GameId) (tid : Nat) (r : Bool) (n : Nat)
    (s : ServerState) (g : Game) (hg : mapGet gid s.games = some g)
    (htid : g.timerId = some tid) (hm1 : g.movesP1.isSome) (hm2 : g.movesP2.isSome) :
    timerFire gid tid r n s = (resolveIfReadyS gid r n s).1 := by
  rcases Option.isSome_iff_exists.mp hm1 with ⟨a, ha⟩
  rcases Option.isSome_iff_exists.mp hm2 with ⟨b, hb⟩
  simp only [timerFire, hg]
  rw [if_neg (by simp [htid])]
  simp only [ha, hb]
  rw [← ha, ← hb]
  congr 1
  congr 1
  · show { s with games := mapSet gid { g with movesP1 := g.movesP1, movesP2 := g.movesP2 } s.games } = s
    have : ({ g with movesP1 := g.movesP1, movesP2 := g.movesP2 } : Game) = g := rfl
    rw [this, mapSet_self_of_get gid g s.games hg]

/-- A timer whose handle is no longer the game's armed handle was
`clearTimeout`-ed: its callback does nothing. -/
theorem timerFire_stale (gid : GameId) (tid : Nat) (r : Bool) (n : Nat)
    (s : ServerState) (g : Game) (hg : mapGet gid s.games = some g)
    (htid : g.timerId ≠ some tid) : timerFire gid tid r n s = s := by
  simp only [timerFire, hg]
  rw [if_pos htid]

/-- `resolveIfReady` does nothing when a move is missing. -/
theorem resolveIfReadyS_no_moves (gid : GameId) (r : Bool) (n : Nat)
    (s : ServerState) (g : Game) (hg : mapGet gid s.games = some g)
    (h : g.movesP1 = none ∨ g.movesP2 = none) :
    (resolveIfReadyS gid r n s).1 = s := by
  simp only [resolveIfReadyS, hg]
  by_cases hp : g.phase ≠ "input"
  · rw [if_pos hp]
  · rw [if_neg hp, if_pos h]

/-- `resolveIfReady` does nothing when the game is not in the input phase. -/
theorem resolveIfReadyS_not_input (gid : GameId) (r : Bool) (n : Nat)
    (s : ServerState) (g : Game) (hg : mapGet gid s.games = some g)
    (h : g.phase ≠ "input") :
    (resolveIfReadyS gid r n s).1 = s := by
  simp only [resolveIfReadyS, hg]
  rw [if_pos h]

/-- After a ready resolution the game's turn is incremented once, its
pending moves are cleared, and its timer handle is either the freshly
minted one or none. -/
theorem resolveIfReadyS_post (gid : GameId) (r : Bool) (n : Nat)
    (s : ServerState) (g : Game) (hg : mapGet gid s.games = some g)
    (hphase : g.phase = "input") (hm1 : g.movesP1.isSome) (hm2 : g.movesP2.isSome) :
    ∃ g', mapGet gid ((resolveIfReadyS gid r n s).1).games = some g' ∧
      g'.turn = g.turn + 1 ∧ g'.movesP1 = none ∧ g'.movesP2 = none ∧
      (g'.timerId = some s.nextTimerId ∨ g'.timerId = none) ∧
      (g'.phase = "input" ∨ g'.phase = "over") := by
  rw [resolveIfReadyS_ready gid r n s g hg hphase hm1 hm2]
  split_ifs with hov
  · refine ⟨_, mapGet_mapSet_self _ _ _, ?_, ?_, ?_, ?_, ?_⟩
    · show (resolveTurn { g with timerId := none } r).1.turn = g.turn + 1
      rw [resolveTurn_turn_eq]
    · show (resolveTurn { g with timerId := none } r).1.movesP1 = none
      rw [resolveTurn_movesP1_eq]
    · show (resolveTurn { g with timerId := none } r).1.movesP2 = none
      rw [resolveTurn_movesP2_eq]
    · left; rfl
    · left; rfl
  · refine ⟨_, mapGet_mapSet_self _ _ _, ?_, ?_, ?_, ?_, ?_⟩
    · rw [resolveTurn_turn_eq]
    · rw [resolveTurn_movesP1_eq]
    · rw [resolveTurn_movesP2_eq]
    · right
      rw [resolveTurn_timerId_eq]
    · right
      simpa using hov

/-- C4: at most one resolution per turn.  From a state where a game is in
the `input` phase with both moves present and an armed timer handle `tid`
(minted before the current fresh-handle counter): a manual resolution
increments the turn exactly once and invalidates the old handle (the timer
is cleared before the turn is resolved, so the now-stale expiry is a
no-op); conversely the timer expiry performs exactly the one resolution a
manual trigger would, and a manual check-and-resolve arriving after it
changes nothing. -/
theorem c4_at_most_one_resolution_per_turn (gid : GameId) (tid : Nat)
    (r1 r2 r3 : Bool) (n1 n2 n3 : Nat) (s : ServerState) (g : Game)
    (hg : mapGet gid s.games = some g) (hphase : g.phase = "input")
    (hm1 : g.movesP1.isSome) (hm2 : g.movesP2.isSome)
    (htid : g.timerId = some tid) (hfresh : tid ≠ s.nextTimerId) :
    (∃ g', mapGet gid ((resolveIfReadyS gid r1 n1 s).1).games = some g' ∧
       g'.turn = g.turn + 1 ∧ g'.timerId ≠ some tid) ∧
    timerFire gid tid r2 n2 ((resolveIfReadyS gid r1 n1 s).1) =
      (resolveIfReadyS gid r1 n1 s).1 ∧
    timerFire gid tid r2 n2 s = (resolveIfReadyS gid r2 n2 s).1 ∧
    (resolveIfReadyS gid r3 n3 ((resolveIfReadyS gid r2 n2 s).1)).1 =
      (resolveIfReadyS gid r2 n2 s).1 := by
  refine ⟨?_, ?_, ?_, ?_⟩
  · obtain ⟨g', hget, hturn, _, _, htmr, _⟩ :=
      resolveIfReadyS_post gid r1 n1 s g hg hphase hm1 hm2
    refine ⟨g', hget, hturn, ?_⟩
    rcases htmr with h | h <;> rw [h] <;> simp [Ne.symm hfresh]
  · obtain ⟨g', hget, _, _, _, htmr, _⟩ :=
      resolveIfReadyS_post gid r1 n1 s g hg hphase hm1 hm2
    refine timerFire_stale gid tid r2 n2 _ g' hget ?_
    rcases htmr with h | h <;> rw [h] <;> simp [Ne.symm hfresh]
  · exact timerFire_eq_resolveIfReadyS gid tid r2 n2 s g hg htid hm1 hm2
  · obtain ⟨g', hget, _, hmv, _, _, _⟩ :=
      resolveIfReadyS_post gid r2 n2 s g hg hphase hm1 hm2
    exact resolveIfReadyS_no_moves gid r3 n3 _ g' hget (Or.inl hmv)

/-- A game ready to resolve with its timer armed on handle 0. -/
def wGameC4 : Game :=
  { createGame (GameId.g 5) with
    movesP1 := some "advance", movesP2 := some "advance", timerId := some 0 }

/-- A server holding only `wGameC4`; the fresh-handle counter has moved on. -/
def wServerC4 : ServerState :=
  { games := [(GameId.g 5, wGameC4)], players := [], queue := [],
    completedGames := [], gameIdCounter := 6, nextTimerId := 1 }

/-- Witness for C4 at a concrete state: the stale expiry after a manual
resolution is a no-op, and the expiry path equals the manual path. -/
theorem c4_witness :
    timerFire (GameId.g 5) 0 true 8 ((resolveIfReadyS (GameId.g 5) true 7 wServerC4).1) =
      (resolveIfReadyS (GameId.g 5) true 7 wServerC4).1 ∧
    timerFire (GameId.g 5) 0 true 8 wServerC4 =
      (resolveIfReadyS (GameId.g 5) true 8 wServerC4).1 := by
  have h := c4_at_most_one_resolution_per_turn (GameId.g 5) 0 true true true 7 8 9
    wServerC4 wGameC4 rfl rfl (by decide) (by decide) rfl (by decide)
  exact ⟨h.2.1, h.2.2.1⟩


theorem selectOpponent_none_iff (name ip : String) (q : List QueueEntry) :
    selectOpponent name ip q = none ↔ ∀ e ∈ q, e.name = name ∧ e.ip = ip := by
  induction q with
  | nil => simp [selectOpponent]
  | cons e rest ih =>
    simp only [selectOpponent]
    by_cases hc : e.name ≠ name ∨ e.ip ≠ ip
    · rw [if_pos hc]
      constructor
      · intro hco; cases hco
      · intro hall
        exfalso
        rcases hc with hc | hc
        · exact hc (hall e (by simp)).1
        · exact hc (hall e (by simp)).2
    · rw [if_neg hc]
      push_neg at hc
      cases hres : selectOpponent name ip rest with
      | none =>
        constructor
        · intro _ x hx
          rcases List.mem_cons.mp hx with rfl | hx
          · exact hc
          · exact (ih.mp hres) x hx
        · intro _; rfl
      | some pr =>
        obtain ⟨o, r'⟩ := pr
        constructor
        · intro hco
          replace hco : some (o, e :: r') = none := hco
          cases hco
        · intro hall
          have hn : selectOpponent name ip rest = none :=
            ih.mpr (fun x hx => hall x (List.mem_cons_of_mem _ hx))
          rw [hn] at hres; cases hres

theorem selectOpponent_some_spec (name ip : String) (q : List QueueEntry)
    (e : QueueEntry) (rest : List QueueEntry)
    (h : selectOpponent name ip q = some (e, rest)) :
    (e.name ≠ name ∨ e.ip ≠ ip) ∧
    ∃ pre post, q = pre ++ e :: post ∧ rest = pre ++ post ∧
      ∀ x ∈ pre, x.name = name ∧ x.ip = ip := by
  induction q generalizing rest with
  | nil => simp [selectOpponent] at h
  | cons e0 q0 ih =>
    simp only [selectOpponent] at h
    by_cases hc : e0.name ≠ name ∨ e0.ip ≠ ip
    · rw [if_pos hc] at h
      injection h with h
      injection h with h1 h2
      subst h1; subst h2
      exact ⟨hc, [], q0, rfl, rfl, by simp⟩
    · rw [if_neg hc] at h
      push_neg at hc
      cases hres : selectOpponent name ip q0 with
      | none =>
        rw [hres] at h
        replace h : (none : Option (QueueEntry × List QueueEntry)) = some (e, rest) := h
        cases h
      | some pr =>
        obtain ⟨o, rest'⟩ := pr
        rw [hres] at h
        replace h : some (o, e0 :: rest') = some (e, rest) := h
        simp only [Option.some.injEq, Prod.mk.injEq] at h
        obtain ⟨rfl, rfl⟩ := h
        obtain ⟨hne, pre, post, hq, hr, hall⟩ := ih rest' hres
        refine ⟨hne, e0 :: pre, post, by simp [hq], by simp [hr], ?_⟩
        intro x hx
        rcases List.mem_cons.mp hx with rfl | hx
        · exact ⟨hc.1, hc.2⟩
        · exact hall x hx

theorem selectOpponent_isSome_of_exists (name ip : String) (q : List QueueEntry)
    (h : ∃ e ∈ q, e.name ≠ name ∨ e.ip ≠ ip) :
    ∃ e rest, selectOpponent name ip q = some (e, rest) := by
  cases hres : selectOpponent name ip q with
  | none =>
    obtain ⟨e, he, hne⟩ := h
    have := (selectOpponent_none_iff name ip q).mp hres e he
    rcases hne with hne | hne
    · exact absurd this.1 hne
    · exact absurd this.2 hne
  | some pr => exact ⟨pr.1, pr.2, by simp [hres]⟩


/-- C6: on a join request, after purging stale entries the queue is
scanned from the head and the requester is matched with the first entry
whose (displayName, originKey) pair differs from their own; an entry
sharing both name and origin is never selected, so a solitary identical
entry yields no match (the requester just queues), while an entry with the
same name but a different origin does match. -/
theorem c6_first_differing_identity_pair_matches (name ip : String) (wait : Bool)
    (token : String) (now : Nat) (s : ServerState) :
    (∀ e rest, selectOpponent name ip (purgeStale now s.queue) = some (e, rest) →
       (e.name ≠ name ∨ e.ip ≠ ip) ∧
       ∃ pre post, purgeStale now s.queue = pre ++ e :: post ∧ rest = pre ++ post ∧
         ∀ x ∈ pre, x.name = name ∧ x.ip = ip) ∧
    (∀ e, purgeStale now s.queue = [e] → e.name = name → e.ip = ip →
       (postJoin name ip wait token now s).1 =
         (if wait then JoinResp.deferred token else JoinResp.waiting token)) ∧
    ((∃ e ∈ purgeStale now s.queue, e.name ≠ name ∨ e.ip ≠ ip) →
       ∃ e rest, selectOpponent name ip (purgeStale now s.queue) = some (e, rest) ∧
         (postJoin name ip wait token now s).1 =
           JoinResp.matched token (GameId.g s.gameIdCounter) "p2" e.name) := by
  refine ⟨?_, ?_, ?_⟩
  · intro e rest h
    exact selectOpponent_some_spec name ip _ e rest h
  · intro e hq hn hi
    have hnone : selectOpponent name ip (purgeStale now s.queue) = none := by
      rw [hq]
      refine (selectOpponent_none_iff name ip [e]).mpr ?_
      intro x hx
      simp only [List.mem_singleton] at hx
      subst hx
      exact ⟨hn, hi⟩
    simp only [postJoin, hnone]
  · intro hex
    obtain ⟨e, rest, hsel⟩ := selectOpponent_isSome_of_exists name ip _ hex
    refine ⟨e, rest, hsel, ?_⟩
    simp only [postJoin, hsel]
    rfl

/-- A queue entry for the join-handler witness. -/
def wQueueEntry : QueueEntry :=
  { token := "t1", name := "Nox", ip := "9.9.9.9", timestamp := 40 }

/-- A server whose queue holds only `wQueueEntry`. -/
def wServerC6 : ServerState :=
  { games := [], players := [], queue := [wQueueEntry], completedGames := [],
    gameIdCounter := 3, nextTimerId := 0 }

/-- Witness for C6: the solitary entry with the requester's own name and
origin is not matched — the requester waits instead. -/
theorem c6_witness :
    (postJoin "Nox" "9.9.9.9" false "t2" 50 wServerC6).1 = JoinResp.waiting "t2" := by
  have h := (c6_first_differing_identity_pair_matches "Nox" "9.9.9.9" false "t2" 50
    wServerC6).2.1 wQueueEntry rfl rfl rfl
  simpa using h


theorem mapGet_mapSet_isSome {κ α : Type} [DecidableEq κ] (k k' : κ) (v : α)
    (l : List (κ × α)) (h : (mapGet k' l).isSome) :
    (mapGet k' (mapSet k v l)).isSome := by
  by_cases hk : k' = k
  · subst hk
    rw [mapGet_mapSet_self]
    rfl
  · rw [mapGet_mapSet_ne k k' v l hk]
    exact h

theorem startTurnTimerS_presence (gid gid' : GameId) (s : ServerState)
    (h : (mapGet gid' s.games).isSome) :
    (mapGet gid' (startTurnTimerS gid s).games).isSome := by
  cases hg : mapGet gid s.games with
  | none => simp only [startTurnTimerS, hg]; exact h
  | some g =>
    simp only [startTurnTimerS, hg]
    split_ifs
    · exact h
    · exact mapGet_mapSet_isSome gid gid' _ s.games h

theorem resolveIfReadyS_presence (gid gid' : GameId) (r : Bool) (n : Nat)
    (s : ServerState) (h : (mapGet gid' s.games).isSome) :
    (mapGet gid' ((resolveIfReadyS gid r n s).1).games).isSome := by
  cases hg : mapGet gid s.games with
  | none => simp only [resolveIfReadyS, hg]; exact h
  | some g =>
    simp only [resolveIfReadyS, hg]
    split_ifs
    · exact h
    · exact h
    · exact startTurnTimerS_presence gid gid' _ (mapGet_mapSet_isSome gid gid' _ s.games h)
    · exact mapGet_mapSet_isSome gid gid' _ s.games h

/-- C8: the move-submission handler rejects exactly the stated client
errors — unknown token, a move already pending for the caller this turn,
or an illegal move token — and each rejection leaves the server state
unchanged; when the session's phase is `over` it instead responds with the
terminal game state (again without mutating anything); with a known token,
an `input` phase, no pending move and a legal move, the response is never
an error.  (Absent `token`/`move` request fields are rejected before any
lookup, also without mutation, per the first two branches of `postMove`.) -/

theorem postMove_resolved_present (gid : GameId) (g2 : Game) (rand : Bool)
    (now : Nat) (s : ServerState) :
    (mapGet gid ((resolveIfReadyS gid rand now
      { s with games := mapSet gid g2 s.games }).1).games).isSome := by
  apply resolveIfReadyS_presence
  rw [mapGet_mapSet_self]
  rfl

theorem c8_move_submission_errors_exact (tok mv : String) (rand : Bool) (r4 : Fin 4) (b1 b2 : Bool) (now : Nat)
    (s : ServerState) :
    (mapGet tok s.players = none →
       postMove (some tok) (some mv) rand r4 b1 b2 now s = (MoveResp.errUnknownToken, s)) ∧
    (∀ info g, mapGet tok s.players = some info → mapGet info.gameId s.games = some g →
       (g.phase = "over" →
          postMove (some tok) (some mv) rand r4 b1 b2 now s =
            (MoveResp.gameOver g.winner g.turn (compactState g info.playerId), s)) ∧
       (g.phase = "input" →
          (if info.playerId = "p1" then g.movesP1 else g.movesP2).isSome →
          postMove (some tok) (some mv) rand r4 b1 b2 now s =
            (MoveResp.errAlreadySubmitted, s)) ∧
       (g.phase = "input" →
          (if info.playerId = "p1" then g.movesP1 else g.movesP2) = none →
          validateMove mv = false →
          postMove (some tok) (some mv) rand r4 b1 b2 now s =
            (MoveResp.errInvalidMove, s)) ∧
       (g.phase = "input" →
          (if info.playerId = "p1" then g.movesP1 else g.movesP2) = none →
          validateMove mv = true →
          ((postMove (some tok) (some mv) rand r4 b1 b2 now s).1).isClientError = false)) := by
  refine ⟨?_, ?_⟩
  · intro hnone
    simp only [postMove, hnone]
  · intro info g hinfo hgame
    have hpost : ∀ P : MoveResp × ServerState → Prop, True := fun _ => trivial
    refine ⟨?_, ?_, ?_, ?_⟩
    · intro hover
      simp only [postMove, hinfo, hgame]
      rw [if_pos hover]
    · intro hin hpend
      simp only [postMove, hinfo, hgame]
      rw [if_neg (by simp [hin]), if_neg (by simp [hin]), if_pos hpend]
    · intro hin hpend hv
      simp only [postMove, hinfo, hgame]
      rw [if_neg (by simp [hin]), if_neg (by simp [hin]), if_neg (by simp [hpend]),
        if_pos (by simp [hv])]
    · intro hin hpend hv
      simp only [postMove, hinfo, hgame]
      rw [if_neg (by simp [hin]), if_neg (by simp [hin]), if_neg (by simp [hpend]),
        if_neg (by simp [hv])]
      split_ifs <;> try rfl
      all_goals {
        split
        · exact absurd (by assumption)
            (Option.isSome_iff_ne_none.mp (postMove_resolved_present _ _ _ _ _))
        · rfl
      }

/-- A practice-style game for the move-handler witness. -/
def wGameC8 : Game :=
  { createGame (GameId.g 6) with p1Token := some "tokA", p2Token := some "tokB" }

/-- A server holding `wGameC8` with one bound token. -/
def wServerC8 : ServerState :=
  { games := [(GameId.g 6, wGameC8)],
    players := [("tokA", { gameId := GameId.g 6, playerId := "p1", name := some "A" })],
    queue := [], completedGames := [], gameIdCounter := 7, nextTimerId := 0 }

/-- Witness for C8: an illegal move token is rejected and the state is
unchanged. -/
theorem c8_witness :
    postMove (some "tokA") (some "fly") true 0 true true 5 wServerC8 =
      (MoveResp.errInvalidMove, wServerC8) := by
  have h := (c8_move_submission_errors_exact "tokA" "fly" true 0 true true 5
    wServerC8).2 { gameId := GameId.g 6, playerId := "p1", name := some "A" }
    wGameC8 rfl rfl
  exact h.2.2.1 rfl rfl rfl

theorem mem_le_foldr_max (l : List Nat) (a : Nat) (h : a ∈ l) :
    a ≤ l.foldr max 0 := by
  induction l with
  | nil => cases h
  | cons x xs ih =>
    rcases List.mem_cons.mp h with rfl | h
    · exact le_max_left _ _
    · exact le_trans (ih h) (le_max_right _ _)

/-- `g`-suffixed ids strictly below the restored counter: the counter value
itself can never name a listed id. -/
theorem loadCounter_not_mem (live completed : List GameId) :
    ∀ id ∈ live ++ completed, GameId.g (loadCounter live completed) ≠ id := by
  intro id hid hcontra
  have h1 : gIdNum id ≤ ((live ++ completed).map gIdNum).foldr max 0 :=
    mem_le_foldr_max _ _ (List.mem_map_of_mem gIdNum hid)
  have h2 : gIdNum id = loadCounter live completed := by rw [← hcontra]; rfl
  rw [loadCounter] at h2
  omega

/-- A finished practice game as stored in the database before a restart. -/
def wRowBot1 : GameRow :=
  { id := GameId.bot 1, p1Name := "P", p2Name := "Bot(medium)", turn := 5,
    phase := "over", winner := some "p1", updatedAt := 100, distance := 4,
    scoresP1 := 3, scoresP2 := 0, movesP1 := none, movesP2 := none,
    lastResult := "", maxTurns := some 30, botDifficulty := some "medium",
    botSide := some "p2", exhibition := false, botP1Difficulty := none,
    botP2Difficulty := none, p1Token := some "tk", p2Token := none,
    p1 := none, p2 := none }

/-- Counterexample to C5: the restored counter only reads suffixes of ids
matching g-digits, so after restarting over an archive holding only the
finished practice game `bot_1` the counter is 1 and the next practice
request mints `bot_1` again — an id that existed before the restart. -/
theorem c5_counterexample :
    wRowBot1.phase = "over" ∧
    (loadData [wRowBot1] [] 200).gameIdCounter = 1 ∧
    (postPractice "medium" "P" "tk2" (loadData [wRowBot1] [] 200)).1 = wRowBot1.id := by
  refine ⟨rfl, ?_, ?_⟩ <;> decide

/-- C5 (amended): the counter restored at startup is one past the maximum
numeric suffix over ids of the form g-digits among the reloaded live
sessions and the scanned archived summaries, so a matchmade id `g<counter>`
minted after the restart differs from every reloaded live id and every
scanned archived id; ids minted for practice (`bot_*`) and exhibition
(`ex_*`) sessions carry prefixes the scan ignores and may repeat
pre-restart ids (see the counterexample). -/
theorem c5_amended_matchmade_ids_fresh_after_restart (rows : List GameRow)
    (queueRows : List QueueEntry) (now : Nat) (t1 n1 t2 n2 : String) :
    (∀ p ∈ (loadData rows queueRows now).games,
       (matchPlayers t1 n1 t2 n2 (loadData rows queueRows now)).1 ≠ p.1) ∧
    (∀ c ∈ (loadData rows queueRows now).completedGames,
       (matchPlayers t1 n1 t2 n2 (loadData rows queueRows now)).1 ≠ c.id) := by
  have hmint : (matchPlayers t1 n1 t2 n2 (loadData rows queueRows now)).1 =
      GameId.g ((loadData rows queueRows now).gameIdCounter) := rfl
  have hAeq : (loadData rows queueRows now).gameIdCounter =
      loadCounter ((loadData rows queueRows now).games.map (fun p => p.1))
        ((loadData rows queueRows now).completedGames.map (fun c => c.id)) := by
    simp only [loadData, List.map_map]
    congr 1
  constructor
  · intro p hp
    rw [hmint, hAeq]
    refine loadCounter_not_mem _ _ p.1 ?_
    rw [List.mem_append]
    exact Or.inl (List.mem_map_of_mem _ hp)
  · intro c hc
    rw [hmint, hAeq]
    refine loadCounter_not_mem _ _ c.id ?_
    rw [List.mem_append]
    exact Or.inr (List.mem_map_of_mem _ hc)

/-- A finished matchmade game as stored in the database. -/
def wRowG2 : GameRow :=
  { wRowBot1 with id := GameId.g 2, botDifficulty := none, botSide := none }

/-- Witness for the amended C5: restarting over archive `g2` mints `g3`,
which differs from the archived id. -/
theorem c5_witness :
    (matchPlayers "a" "A" "b" "B" (loadData [wRowG2] [] 200)).1 ≠ GameId.g 2 := by
  have h := (c5_amended_matchmade_ids_fresh_after_restart [wRowG2] [] 200
    "a" "A" "b" "B").2 (rowSummary wRowG2) (by decide)
  exact h


theorem startTurnTimerS_players (gid : GameId) (s : ServerState) :
    (startTurnTimerS gid s).players = s.players := by
  cases hg : mapGet gid s.games with
  | none => simp only [startTurnTimerS, hg]
  | some g =>
    simp only [startTurnTimerS, hg]
    split_ifs <;> rfl

theorem startTurnTimerS_completed (gid : GameId) (s : ServerState) :
    (startTurnTimerS gid s).completedGames = s.completedGames := by
  cases hg : mapGet gid s.games with
  | none => simp only [startTurnTimerS, hg]
  | some g =>
    simp only [startTurnTimerS, hg]
    split_ifs <;> rfl

theorem resolveIfReadyS_players (gid : GameId) (r : Bool) (n : Nat) (s : ServerState) :
    ((resolveIfReadyS gid r n s).1).players = s.players := by
  cases hg : mapGet gid s.games with
  | none => simp only [resolveIfReadyS, hg]
  | some g =>
    simp only [resolveIfReadyS, hg]
    split_ifs
    · rfl
    · rfl
    · rw [startTurnTimerS_players]
    · rfl

theorem archivePush_length (g : Game) (n : Nat) (l : List Summary)
    (h : l.length ≤ 100) : (archivePush g n l).length ≤ 100 := by
  simp only [archivePush]
  split_ifs with hlen <;> simp_all

theorem resolveIfReadyS_completed_length (gid : GameId) (r : Bool) (n : Nat)
    (s : ServerState) (h : s.completedGames.length ≤ 100) :
    ((resolveIfReadyS gid r n s).1).completedGames.length ≤ 100 := by
  cases hg : mapGet gid s.games with
  | none => simp only [resolveIfReadyS, hg]; exact h
  | some g =>
    simp only [resolveIfReadyS, hg]
    split_ifs
    · exact h
    · exact h
    · rw [startTurnTimerS_completed]; exact h
    · exact archivePush_length _ _ _ h



theorem postJoin_games_presence (name ip : String) (wait : Bool) (token : String)
    (now : Nat) (s : ServerState) (gid : GameId) (h : (mapGet gid s.games).isSome) :
    (mapGet gid ((postJoin name ip wait token now s).2).games).isSome := by
  cases hsel : selectOpponent name ip (purgeStale now s.queue) with
  | none => simp only [postJoin, hsel]; exact h
  | some pr =>
    obtain ⟨opp, q2⟩ := pr
    simp only [postJoin, hsel, matchPlayers]
    exact startTurnTimerS_presence _ _ _ (mapGet_mapSet_isSome _ _ _ _ h)

theorem postJoin_players_presence (name ip : String) (wait : Bool) (token : String)
    (now : Nat) (s : ServerState) (tok : String) (h : (mapGet tok s.players).isSome) :
    (mapGet tok ((postJoin name ip wait token now s).2).players).isSome := by
  cases hsel : selectOpponent name ip (purgeStale now s.queue) with
  | none => simp only [postJoin, hsel]; exact h
  | some pr =>
    obtain ⟨opp, q2⟩ := pr
    simp only [postJoin, hsel, matchPlayers]
    rw [startTurnTimerS_players]
    exact mapGet_mapSet_isSome _ _ _ _ (mapGet_mapSet_isSome _ _ _ _ h)

theorem postJoin_completed (name ip : String) (wait : Bool) (token : String)
    (now : Nat) (s : ServerState) :
    ((postJoin name ip wait token now s).2).completedGames = s.completedGames := by
  cases hsel : selectOpponent name ip (purgeStale now s.queue) with
  | none => simp only [postJoin, hsel]
  | some pr =>
    obtain ⟨opp, q2⟩ := pr
    simp only [postJoin, hsel, matchPlayers]
    rw [startTurnTimerS_completed]

theorem postPractice_games_presence (difficulty name token : String)
    (s : ServerState) (gid : GameId) (h : (mapGet gid s.games).isSome) :
    (mapGet gid ((postPractice difficulty name token s).2).games).isSome := by
  simp only [postPractice]
  exact startTurnTimerS_presence _ _ _ (mapGet_mapSet_isSome _ _ _ _ h)

theorem postPractice_players_presence (difficulty name token : String)
    (s : ServerState) (tok : String) (h : (mapGet tok s.players).isSome) :
    (mapGet tok ((postPractice difficulty name token s).2).players).isSome := by
  simp only [postPractice]
  rw [startTurnTimerS_players]
  exact mapGet_mapSet_isSome _ _ _ _ h

theorem postPractice_completed (difficulty name token : String) (s : ServerState) :
    ((postPractice difficulty name token s).2).completedGames = s.completedGames := by
  simp only [postPractice]
  rw [startTurnTimerS_completed]

theorem postExhibition_games_presence (t1 t2 d1 d2 : String)
    (s : ServerState) (gid : GameId) (h : (mapGet gid s.games).isSome) :
    (mapGet gid ((postExhibition t1 t2 d1 d2 s).2).games).isSome := by
  simp only [postExhibition]
  split_ifs
  · exact h
  · exact mapGet_mapSet_isSome _ _ _ _ h

theorem postExhibition_players_presence (t1 t2 d1 d2 : String)
    (s : ServerState) (tok : String) (h : (mapGet tok s.players).isSome) :
    (mapGet tok ((postExhibition t1 t2 d1 d2 s).2).players).isSome := by
  simp only [postExhibition]
  split_ifs
  · exact h
  · exact mapGet_mapSet_isSome _ _ _ _ (mapGet_mapSet_isSome _ _ _ _ h)

theorem postExhibition_completed (t1 t2 d1 d2 : String) (s : ServerState) :
    ((postExhibition t1 t2 d1 d2 s).2).completedGames = s.completedGames := by
  simp only [postExhibition]
  split_ifs <;> rfl

theorem timerFire_games_presence (gid : GameId) (tid : Nat) (rand : Bool) (now : Nat)
    (s : ServerState) (gid' : GameId) (h : (mapGet gid' s.games).isSome) :
    (mapGet gid' (timerFire gid tid rand now s).games).isSome := by
  cases hg : mapGet gid s.games with
  | none => simp only [timerFire, hg]; exact h
  | some g =>
    simp only [timerFire, hg]
    split_ifs
    · exact h
    · exact resolveIfReadyS_presence _ _ _ _ _ (mapGet_mapSet_isSome _ _ _ _ h)

theorem timerFire_players (gid : GameId) (tid : Nat) (rand : Bool) (now : Nat)
    (s : ServerState) : (timerFire gid tid rand now s).players = s.players := by
  cases hg : mapGet gid s.games with
  | none => simp only [timerFire, hg]
  | some g =>
    simp only [timerFire, hg]
    split_ifs
    · rfl
    · rw [resolveIfReadyS_players]

theorem timerFire_completed_length (gid : GameId) (tid : Nat) (rand : Bool) (now : Nat)
    (s : ServerState) (h : s.completedGames.length ≤ 100) :
    (timerFire gid tid rand now s).completedGames.length ≤ 100 := by
  cases hg : mapGet gid s.games with
  | none => simp only [timerFire, hg]; exact h
  | some g =>
    simp only [timerFire, hg]
    split_ifs
    · exact h
    · exact resolveIfReadyS_completed_length _ _ _ _ h

theorem botFollowUp_games_presence (gid : GameId) (r4 : Fin 4) (b1 b2 rand : Bool)
    (now : Nat) (s : ServerState) (gid' : GameId) (h : (mapGet gid' s.games).isSome) :
    (mapGet gid' (botFollowUp gid r4 b1 b2 rand now s).games).isSome := by
  cases hg : mapGet gid s.games with
  | none => simp only [botFollowUp, hg]; exact h
  | some g =>
    cases hd : g.botDifficulty with
    | none => simp only [botFollowUp, hg, hd]; exact h
    | some dif =>
      simp only [botFollowUp, hg, hd]
      split_ifs <;>
        exact resolveIfReadyS_presence _ _ _ _ _ (mapGet_mapSet_isSome _ _ _ _ h)

theorem botFollowUp_players (gid : GameId) (r4 : Fin 4) (b1 b2 rand : Bool)
    (now : Nat) (s : ServerState) :
    (botFollowUp gid r4 b1 b2 rand now s).players = s.players := by
  cases hg : mapGet gid s.games with
  | none => simp only [botFollowUp, hg]
  | some g =>
    cases hd : g.botDifficulty with
    | none => simp only [botFollowUp, hg, hd]
    | some dif =>
      simp only [botFollowUp, hg, hd]
      split_ifs <;> rw [resolveIfReadyS_players]

theorem botFollowUp_completed_length (gid : GameId) (r4 : Fin 4) (b1 b2 rand : Bool)
    (now : Nat) (s : ServerState) (h : s.completedGames.length ≤ 100) :
    (botFollowUp gid r4 b1 b2 rand now s).completedGames.length ≤ 100 := by
  cases hg : mapGet gid s.games with
  | none => simp only [botFollowUp, hg]; exact h
  | some g =>
    cases hd : g.botDifficulty with
    | none => simp only [botFollowUp, hg, hd]; exact h
    | some dif =>
      simp only [botFollowUp, hg, hd]
      split_ifs <;> exact resolveIfReadyS_completed_length _ _ _ _ h

theorem exhibitionTurn_games_presence (gid : GameId) (r4a : Fin 4) (b1a b2a : Bool)
    (r4b : Fin 4) (b1b b2b rand : Bool) (now : Nat)
    (s : ServerState) (gid' : GameId) (h : (mapGet gid' s.games).isSome) :
    (mapGet gid' (exhibitionTurn gid r4a b1a b2a r4b b1b b2b rand now s).games).isSome := by
  cases hg : mapGet gid s.games with
  | none => simp only [exhibitionTurn, hg]; exact h
  | some g =>
    simp only [exhibitionTurn, hg]
    split_ifs
    · exact h
    · exact resolveIfReadyS_presence _ _ _ _ _ (mapGet_mapSet_isSome _ _ _ _ h)

theorem exhibitionTurn_players (gid : GameId) (r4a : Fin 4) (b1a b2a : Bool)
    (r4b : Fin 4) (b1b b2b rand : Bool) (now : Nat) (s : ServerState) :
    (exhibitionTurn gid r4a b1a b2a r4b b1b b2b rand now s).players = s.players := by
  cases hg : mapGet gid s.games with
  | none => simp only [exhibitionTurn, hg]
  | some g =>
    simp only [exhibitionTurn, hg]
    split_ifs
    · rfl
    · rw [resolveIfReadyS_players]

theorem exhibitionTurn_completed_length (gid : GameId) (r4a : Fin 4) (b1a b2a : Bool)
    (r4b : Fin 4) (b1b b2b rand : Bool) (now : Nat) (s : ServerState)
    (h : s.completedGames.length ≤ 100) :
    (exhibitionTurn gid r4a b1a b2a r4b b1b b2b rand now s).completedGames.length ≤ 100 := by
  cases hg : mapGet gid s.games with
  | none => simp only [exhibitionTurn, hg]; exact h
  | some g =>
    simp only [exhibitionTurn, hg]
    split_ifs
    · exact h
    · exact resolveIfReadyS_completed_length _ _ _ _ h



theorem postMove_games_presence (token mv : Option String) (rand : Bool) (r4 : Fin 4)
    (b1 b2 : Bool) (now : Nat) (s : ServerState) (gid : GameId)
    (h : (mapGet gid s.games).isSome) :
    (mapGet gid ((postMove token mv rand r4 b1 b2 now s).2).games).isSome := by
  cases token with
  | none => exact h
  | some tok =>
  cases mv with
  | none => exact h
  | some m =>
  cases hinfo : mapGet tok s.players with
  | none => simp only [postMove, hinfo]; exact h
  | some info =>
  cases hgame : mapGet info.gameId s.games with
  | none => simp only [postMove, hinfo, hgame]; exact h
  | some g =>
  simp only [postMove, hinfo, hgame]
  by_cases hov : g.phase = "over"
  · rw [if_pos hov]; exact h
  rw [if_neg hov]
  by_cases hni : g.phase ≠ "input"
  · rw [if_pos hni]; exact h
  rw [if_neg hni]
  by_cases hpend : (if info.playerId = "p1" then g.movesP1 else g.movesP2).isSome = true
  · rw [if_pos hpend]; exact h
  rw [if_neg hpend]
  by_cases hval : ¬ validateMove m = true
  · rw [if_pos hval]; exact h
  rw [if_neg hval]
  split_ifs
  all_goals
    first
      | exact mapGet_mapSet_isSome _ _ _ _ h
      | (split <;>
          exact resolveIfReadyS_presence _ _ _ _ _ (mapGet_mapSet_isSome _ _ _ _ h))

theorem postMove_players (token mv : Option String) (rand : Bool) (r4 : Fin 4)
    (b1 b2 : Bool) (now : Nat) (s : ServerState) :
    ((postMove token mv rand r4 b1 b2 now s).2).players = s.players := by
  cases token with
  | none => rfl
  | some tok =>
  cases mv with
  | none => rfl
  | some m =>
  cases hinfo : mapGet tok s.players with
  | none => simp only [postMove, hinfo]
  | some info =>
  cases hgame : mapGet info.gameId s.games with
  | none => simp only [postMove, hinfo, hgame]
  | some g =>
  simp only [postMove, hinfo, hgame]
  by_cases hov : g.phase = "over"
  · rw [if_pos hov]
  rw [if_neg hov]
  by_cases hni : g.phase ≠ "input"
  · rw [if_pos hni]
  rw [if_neg hni]
  by_cases hpend : (if info.playerId = "p1" then g.movesP1 else g.movesP2).isSome = true
  · rw [if_pos hpend]
  rw [if_neg hpend]
  by_cases hval : ¬ validateMove m = true
  · rw [if_pos hval]
  rw [if_neg hval]
  split_ifs
  all_goals
    first
      | rfl
      | (split <;> rw [resolveIfReadyS_players])

theorem postMove_completed_length (token mv : Option String) (rand : Bool) (r4 : Fin 4)
    (b1 b2 : Bool) (now : Nat) (s : ServerState)
    (h : s.completedGames.length ≤ 100) :
    ((postMove token mv rand r4 b1 b2 now s).2).completedGames.length ≤ 100 := by
  cases token with
  | none => exact h
  | some tok =>
  cases mv with
  | none => exact h
  | some m =>
  cases hinfo : mapGet tok s.players with
  | none => simp only [postMove, hinfo]; exact h
  | some info =>
  cases hgame : mapGet info.gameId s.games with
  | none => simp only [postMove, hinfo, hgame]; exact h
  | some g =>
  simp only [postMove, hinfo, hgame]
  by_cases hov : g.phase = "over"
  · rw [if_pos hov]; exact h
  rw [if_neg hov]
  by_cases hni : g.phase ≠ "input"
  · rw [if_pos hni]; exact h
  rw [if_neg hni]
  by_cases hpend : (if info.playerId = "p1" then g.movesP1 else g.movesP2).isSome = true
  · rw [if_pos hpend]; exact h
  rw [if_neg hpend]
  by_cases hval : ¬ validateMove m = true
  · rw [if_pos hval]; exact h
  rw [if_neg hval]
  split_ifs
  all_goals
    first
      | exact h
      | (split <;> exact resolveIfReadyS_completed_length _ _ _ _ h)



/-- The mutating events the server processes: the four state-changing
HTTP handlers plus the three kinds of scheduled callbacks. -/
inductive ServerEvent where
  | join (name ip : String) (wait : Bool) (token : String) (now : Nat)
  | move (token move : Option String) (rand : Bool) (r4 : Fin 4) (b1 b2 : Bool) (now : Nat)
  | practice (difficulty name token : String)
  | exhibition (tok1 tok2 d1 d2 : String)
  | exhibitTurn (gid : GameId) (r4a : Fin 4) (b1a b2a : Bool) (r4b : Fin 4)
      (b1b b2b : Bool) (rand : Bool) (now : Nat)
  | timer (gid : GameId) (tid : Nat) (rand : Bool) (now : Nat)
  | botTurn (gid : GameId) (r4 : Fin 4) (b1 b2 : Bool) (rand : Bool) (now : Nat)

/-- The state transition performed by one server event. -/
def serverStep : ServerEvent → ServerState → ServerState
  | .join name ip wait token now, s => (postJoin name ip wait token now s).2
  | .move token mv rand r4 b1 b2 now, s => (postMove token mv rand r4 b1 b2 now s).2
  | .practice d nm t, s => (postPractice d nm t s).2
  | .exhibition t1 t2 d1 d2, s => (postExhibition t1 t2 d1 d2 s).2
  | .exhibitTurn gid r4a b1a b2a r4b b1b b2b rand now, s =>
      exhibitionTurn gid r4a b1a b2a r4b b1b b2b rand now s
  | .timer gid tid rand now, s => timerFire gid tid rand now s
  | .botTurn gid r4 b1 b2 rand now, s => botFollowUp gid r4 b1 b2 rand now s

theorem mapGet_mapSet_isSome_rev {κ α : Type} [DecidableEq κ] (k k' : κ) (v : α)
    (l : List (κ × α)) (h : (mapGet k' (mapSet k v l)).isSome) :
    k' = k ∨ (mapGet k' l).isSome := by
  by_cases hk : k' = k
  · exact Or.inl hk
  · rw [mapGet_mapSet_ne k k' v l hk] at h
    exact Or.inr h

theorem startTurnTimerS_presence_rev (gid gid' : GameId) (s : ServerState)
    (h : (mapGet gid' (startTurnTimerS gid s).games).isSome) :
    (mapGet gid' s.games).isSome := by
  revert h
  cases hg : mapGet gid s.games with
  | none => simp only [startTurnTimerS, hg]; exact id
  | some g =>
    simp only [startTurnTimerS, hg]
    split_ifs
    · exact id
    · intro h
      rcases mapGet_mapSet_isSome_rev _ _ _ _ h with rfl | h2
      · rw [hg]; rfl
      · exact h2

theorem loadOneGame_presence_rev (row : GameRow) (s : ServerState) (gid : GameId)
    (h : (mapGet gid (loadOneGame row s).games).isSome) :
    gid = row.id ∨ (mapGet gid s.games).isSome := by
  revert h
  cases hq1 : row.p1Token <;> cases hq2 : row.p2Token <;>
    cases hq3 : row.p1 <;> cases hq4 : row.p2 <;>
    simp only [loadOneGame, loadGameFromDB, createGame, hq1, hq2, hq3, hq4] <;>
    split_ifs <;>
    (intro h
     (try replace h := startTurnTimerS_presence_rev _ _ _ h)
     rcases mapGet_mapSet_isSome_rev _ _ _ _ h with rfl | h2
     · left; rfl
     · right; exact h2)

theorem loadFold_presence_rev (l : List GameRow) (s0 : ServerState) (gid : GameId) :
    (mapGet gid (l.foldl (fun s r => loadOneGame r s) s0).games).isSome →
    (∃ row ∈ l, row.id = gid) ∨ (mapGet gid s0.games).isSome := by
  induction l generalizing s0 with
  | nil => intro h; exact Or.inr h
  | cons r rs ih =>
    intro h
    simp only [List.foldl_cons] at h
    rcases ih (loadOneGame r s0) h with ⟨row, hrow, hid⟩ | h2
    · exact Or.inl ⟨row, by simp [hrow], hid⟩
    · rcases loadOneGame_presence_rev r s0 gid h2 with hid | h3
      · exact Or.inl ⟨r, by simp, hid.symm⟩
      · exact Or.inr h3



/-- C10: no server event ever removes a session from the in-memory game
registry or a binding from the token map (archival only appends to the
bounded `completedGames` list, which never exceeds 100 entries); for a
finished game, `GET /api/state/:token` therefore keeps answering with
status `game_over` and the terminal state rather than an unknown-token
error; and at startup only rows whose phase is not `over` are reloaded
into the live registry. -/
theorem c10_finished_sessions_never_removed :
    (∀ (e : ServerEvent) (s : ServerState) (gid : GameId),
       (mapGet gid s.games).isSome → (mapGet gid (serverStep e s).games).isSome) ∧
    (∀ (e : ServerEvent) (s : ServerState) (tok : String),
       (mapGet tok s.players).isSome → (mapGet tok (serverStep e s).players).isSome) ∧
    (∀ (e : ServerEvent) (s : ServerState),
       s.completedGames.length ≤ 100 → (serverStep e s).completedGames.length ≤ 100) ∧
    (∀ (s : ServerState) (tok : String) (info : PlayerInfo) (g : Game),
       mapGet tok s.players = some info → mapGet info.gameId s.games = some g →
       g.phase = "over" →
       getStateH tok s = StateResp.ok "game_over" g.turn g.phase
         (compactState g info.playerId) g.winner info.gameId info.playerId) ∧
    (∀ (rows : List GameRow) (queueRows : List QueueEntry) (now : Nat) (gid : GameId),
       (mapGet gid (loadData rows queueRows now).games).isSome →
       ∃ row ∈ rows, row.id = gid ∧ row.phase ≠ "over") := by
  refine ⟨?_, ?_, ?_, ?_, ?_⟩
  · intro e s gid h
    cases e with
    | join name ip wait token now => exact postJoin_games_presence _ _ _ _ _ _ _ h
    | move token mv rand r4 b1 b2 now => exact postMove_games_presence _ _ _ _ _ _ _ _ _ h
    | practice d nm t => exact postPractice_games_presence _ _ _ _ _ h
    | exhibition t1 t2 d1 d2 => exact postExhibition_games_presence _ _ _ _ _ _ h
    | exhibitTurn gid2 r4a b1a b2a r4b b1b b2b rand now =>
      exact exhibitionTurn_games_presence _ _ _ _ _ _ _ _ _ _ _ h
    | timer gid2 tid rand now => exact timerFire_games_presence _ _ _ _ _ _ h
    | botTurn gid2 r4 b1 b2 rand now => exact botFollowUp_games_presence _ _ _ _ _ _ _ _ h
  · intro e s tok h
    cases e with
    | join name ip wait token now => exact postJoin_players_presence _ _ _ _ _ _ _ h
    | move token mv rand r4 b1 b2 now =>
      simp only [serverStep]
      rw [postMove_players]
      exact h
    | practice d nm t => exact postPractice_players_presence _ _ _ _ _ h
    | exhibition t1 t2 d1 d2 => exact postExhibition_players_presence _ _ _ _ _ _ h
    | exhibitTurn gid2 r4a b1a b2a r4b b1b b2b rand now =>
      simp only [serverStep]
      rw [exhibitionTurn_players]
      exact h
    | timer gid2 tid rand now =>
      simp only [serverStep]
      rw [timerFire_players]
      exact h
    | botTurn gid2 r4 b1 b2 rand now =>
      simp only [serverStep]
      rw [botFollowUp_players]
      exact h
  · intro e s h
    cases e with
    | join name ip wait token now =>
      simp only [serverStep]
      rw [postJoin_completed]
      exact h
    | move token mv rand r4 b1 b2 now => exact postMove_completed_length _ _ _ _ _ _ _ _ h
    | practice d nm t =>
      simp only [serverStep]
      rw [postPractice_completed]
      exact h
    | exhibition t1 t2 d1 d2 =>
      simp only [serverStep]
      rw [postExhibition_completed]
      exact h
    | exhibitTurn gid2 r4a b1a b2a r4b b1b b2b rand now =>
      exact exhibitionTurn_completed_length _ _ _ _ _ _ _ _ _ _ h
    | timer gid2 tid rand now => exact timerFire_completed_length _ _ _ _ _ h
    | botTurn gid2 r4 b1 b2 rand now => exact botFollowUp_completed_length _ _ _ _ _ _ _ h
  · intro s tok info g hinfo hgame hover
    simp only [getStateH, hinfo, hgame]
    rw [if_pos hover]
  · intro rows queueRows now gid h
    have h' : (mapGet gid ((rows.filter (fun r => r.phase ≠ "over")).foldl
        (fun s r => loadOneGame r s)
        { games := [], players := [], queue := [], completedGames := [],
          gameIdCounter := 1, nextTimerId := 0 }).games).isSome := h
    rcases loadFold_presence_rev _ _ _ h' with ⟨row, hrow, hid⟩ | h2
    · have hm := List.mem_filter.mp hrow
      exact ⟨row, hm.1, hid, by simpa using hm.2⟩
    · simp [mapGet] at h2

/-- A finished game bound to token tk9. -/
def wGameOver : Game :=
  { createGame (GameId.g 9) with phase := "over", winner := some "p1" }

/-- A server holding the finished `wGameOver` with its binding. -/
def wServerC10 : ServerState :=
  { games := [(GameId.g 9, wGameOver)],
    players := [("tk9", { gameId := GameId.g 9, playerId := "p1", name := some "N" })],
    queue := [], completedGames := [], gameIdCounter := 10, nextTimerId := 0 }

/-- Witness for C10: the state endpoint answers `game_over` for the
finished game's token. -/
theorem c10_witness :
    getStateH "tk9" wServerC10 = StateResp.ok "game_over" wGameOver.turn
      wGameOver.phase (compactState wGameOver "p1") wGameOver.winner
      (GameId.g 9) "p1" := by
  have h := c10_finished_sessions_never_removed.2.2.2.1 wServerC10 "tk9"
    { gameId := GameId.g 9, playerId := "p1", name := some "N" } wGameOver rfl rfl rfl
  exact h

end Shellsword
